import Mathlib

/-!
# Verification of the notification prioritization engine

A shallow embedding of the engine found under
`notification_engine/engine/` (models.py, store.py, rules.py, scorer.py,
prioritizer.py, audit.py), together with theorems settling the spec's
claims about it.

Modelling conventions:

* Wall-clock time (`time.time()`, `datetime.now()`) is an explicit rational
  parameter `now : ℚ`; each call into the engine uses a single `now` for
  all clock reads it performs.
* Python floats are modelled as exact rationals `ℚ`; `round(x, 3)` is
  modelled as rounding half-up to 3 decimals.
* `expires_at` strings are modelled by `ExpiresField`: absent, a string
  `datetime.fromisoformat` fails to parse, or a parsed timestamp.
* Strings are handled over the ASCII fragment: `str.lower`, `str.strip`
  and the regex classes `\w`/`\s` are given their ASCII meanings, and
  `str.encode()` of an ASCII string is its list of code points.
* `dict` state is an association list in which an update conses a fresh
  binding on the front and lookup takes the first hit.
-/

/-! ## Time and the event / decision data model (models.py) -/

/-- The `expires_at` field of an event: Python's `Optional[str]`, split by
whether `datetime.fromisoformat` would parse it. -/
inductive ExpiresField where
  | absent : ExpiresField
  | invalid : ExpiresField
  | timeAt (t : ℚ) : ExpiresField
deriving DecidableEq

/-- Model of `NotificationEvent` from models.py.  `metadata` appears in the engine only
through `metadata.get("quiet_hours", False)`, modelled by `quiet_hours`. -/
structure NotificationEvent where
  user_id : String
  event_type : String
  channel : String
  title : Option String := none
  message : Option String := none
  source : Option String := none
  priority_hint : Option String := none
  expires_at : ExpiresField := .absent
  dedupe_key : Option String := none
  quiet_hours : Bool := false
  id : String := ""
deriving DecidableEq

/-- Model of `NotificationEvent.is_expired`: true iff `expires_at` parses and is
strictly in the past (`exp < datetime.now(...)`); parse failures and absence
give `False`. -/
def NotificationEvent.is_expired (e : NotificationEvent) (now : ℚ) : Bool :=
  match e.expires_at with
  | .absent => false
  | .invalid => false
  | .timeAt t => decide (t < now)

/-- Model of `Decision` from models.py (`decided_at` and `deferred_until` carry no
engine logic and are omitted). -/
structure Decision where
  event_id : String
  user_id : String
  action : String
  score : ℚ
  reason : String
  rule_matched : Option String := none
  ai_used : Bool := false
  fallback_mode : Bool := false
deriving DecidableEq

/-- Model of `ScoreResult` from scorer.py. -/
structure ScoreResult where
  score : ℚ
  action : String
  reason : String
  ai_used : Bool
  fallback_mode : Bool := false
deriving DecidableEq

/-! ## SHA-256 (hashlib.sha256), over lists of byte values -/

def w32mod : ℕ := 4294967296

def add32 (a b : ℕ) : ℕ := (a + b) % w32mod

def xor32 (a b : ℕ) : ℕ := a ^^^ b

def rotr32 (n x : ℕ) : ℕ := ((x >>> n) ||| (x <<< (32 - n))) % w32mod

def shr32 (n x : ℕ) : ℕ := x >>> n

def sha256K : List ℕ :=
  [1116352408, 1899447441, 3049323471, 3921009573, 961987163,
   1508970993, 2453635748, 2870763221, 3624381080, 310598401,
   607225278, 1426881987, 1925078388, 2162078206, 2614888103,
   3248222580, 3835390401, 4022224774, 264347078, 604807628,
   770255983, 1249150122, 1555081692, 1996064986, 2554220882,
   2821834349, 2952996808, 3210313671, 3336571891, 3584528711,
   113926993, 338241895, 666307205, 773529912, 1294757372,
   1396182291, 1695183700, 1986661051, 2177026350, 2456956037,
   2730485921, 2820302411, 3259730800, 3345764771, 3516065817,
   3600352804, 4094571909, 275423344, 430227734, 506948616,
   659060556, 883997877, 958139571, 1322822218, 1537002063,
   1747873779, 1955562222, 2024104815, 2227730452, 2361852424,
   2428436474, 2756734187, 3204031479, 3329325298]

/-- Working state of one SHA-256 compression. -/
structure Sha256State where
  a : ℕ
  b : ℕ
  c : ℕ
  d : ℕ
  e : ℕ
  f : ℕ
  g : ℕ
  h : ℕ

def sha256Init : Sha256State :=
  ⟨1779033703, 3144134277, 1013904242, 2773480762,
   1359893119, 2600822924, 528734635, 1541459225⟩

/-- Big-endian 8-byte encoding of a natural number. -/
def be64 (n : ℕ) : List ℕ :=
  [(n >>> 56) % 256, (n >>> 48) % 256, (n >>> 40) % 256, (n >>> 32) % 256,
   (n >>> 24) % 256, (n >>> 16) % 256, (n >>> 8) % 256, n % 256]

/-- Big-endian 4-byte encoding of a 32-bit word. -/
def be32 (n : ℕ) : List ℕ :=
  [(n >>> 24) % 256, (n >>> 16) % 256, (n >>> 8) % 256, n % 256]

/-- SHA-256 padding: append byte 128, zeros to 56 mod 64, then the bit length
as 8 big-endian bytes. -/
def sha256Pad (msg : List ℕ) : List ℕ :=
  let l := msg.length
  let padLen := (64 - ((l + 9) % 64)) % 64
  msg ++ (128 :: List.replicate padLen 0) ++ be64 (8 * l)

/-- Split a byte list into 64-byte chunks (`fuel`-bounded recursion; callers
pass the list's length as fuel). -/
def chunks64 : ℕ → List ℕ → List (List ℕ)
  | 0, _ => []
  | _, [] => []
  | fuel + 1, l => l.take 64 :: chunks64 fuel (l.drop 64)

/-- Group bytes into big-endian 32-bit words. -/
def bytesToWords : ℕ → List ℕ → List ℕ
  | 0, _ => []
  | _, [] => []
  | fuel + 1, l =>
      (match l.take 4 with
       | [b0, b1, b2, b3] => b0 <<< 24 ||| b1 <<< 16 ||| b2 <<< 8 ||| b3
       | _ => 0) :: bytesToWords fuel (l.drop 4)

def smallSigma0 (x : ℕ) : ℕ := xor32 (xor32 (rotr32 7 x) (rotr32 18 x)) (shr32 3 x)

def smallSigma1 (x : ℕ) : ℕ := xor32 (xor32 (rotr32 17 x) (rotr32 19 x)) (shr32 10 x)

def bigSigma0 (x : ℕ) : ℕ := xor32 (xor32 (rotr32 2 x) (rotr32 13 x)) (rotr32 22 x)

def bigSigma1 (x : ℕ) : ℕ := xor32 (xor32 (rotr32 6 x) (rotr32 11 x)) (rotr32 25 x)

/-- Extend the 16 message words to the 64-word schedule. -/
def sha256Schedule (w16 : List ℕ) : Array ℕ :=
  (List.range 48).foldl
    (fun a _ =>
      let n := a.size
      a.push (add32 (add32 (smallSigma1 (a.getD (n - 2) 0)) (a.getD (n - 7) 0))
                    (add32 (smallSigma0 (a.getD (n - 15) 0)) (a.getD (n - 16) 0))))
    w16.toArray

/-- One SHA-256 round. -/
def sha256Round (st : Sha256State) (k w : ℕ) : Sha256State :=
  let ch := xor32 (st.e &&& st.f) ((st.e ^^^ (w32mod - 1)) &&& st.g)
  let t1 := add32 (add32 (add32 st.h (bigSigma1 st.e)) (add32 ch k)) w
  let maj := xor32 (xor32 (st.a &&& st.b) (st.a &&& st.c)) (st.b &&& st.c)
  let t2 := add32 (bigSigma0 st.a) maj
  ⟨add32 t1 t2, st.a, st.b, st.c, add32 st.d t1, st.e, st.f, st.g⟩

/-- Compress one 64-byte chunk into the running hash state. -/
def sha256Compress (st : Sha256State) (chunk : List ℕ) : Sha256State :=
  let w := sha256Schedule (bytesToWords chunk.length chunk)
  let r := (List.range 64).foldl
    (fun s i => sha256Round s (sha256K.getD i 0) (w.getD i 0)) st
  ⟨add32 st.a r.a, add32 st.b r.b, add32 st.c r.c, add32 st.d r.d,
   add32 st.e r.e, add32 st.f r.f, add32 st.g r.g, add32 st.h r.h⟩

/-- SHA-256 digest of a byte list, as 32 bytes. -/
def sha256 (msg : List ℕ) : List ℕ :=
  let padded := sha256Pad msg
  let st := (chunks64 padded.length padded).foldl sha256Compress sha256Init
  be32 st.a ++ be32 st.b ++ be32 st.c ++ be32 st.d ++
  be32 st.e ++ be32 st.f ++ be32 st.g ++ be32 st.h

/-- One lowercase hexadecimal digit. -/
def hexDigit (n : ℕ) : Char :=
  if n < 10 then Char.ofNat (48 + n) else Char.ofNat (87 + n)

/-- Lowercase hex string of a byte list (`.hexdigest()`). -/
def hexOfBytes (bs : List ℕ) : String :=
  String.mk (bs.flatMap (fun b => [hexDigit (b / 16), hexDigit (b % 16)]))

/-! ## Content normalization and fingerprint (store.py, DedupChecker) -/

/-- ASCII `str.lower` for a character. -/
def pyLowerChar (c : Char) : Char :=
  if 'A' ≤ c ∧ c ≤ 'Z' then Char.ofNat (c.toNat + 32) else c

/-- Python's `\s` class (ASCII): space, tab, newline, CR, vertical tab,
form feed. -/
def pyIsSpace (c : Char) : Bool :=
  c = ' ' || c = '\t' || c = '\n' || c = '\r' || c = '\x0b' || c = '\x0c'

/-- Python's `\w` class (ASCII): alphanumerics and the underscore. -/
def pyIsWord (c : Char) : Bool :=
  c.isAlphanum || c == '_'

/-- Model of `str.strip()` on a character list. -/
def pyStrip (cs : List Char) : List Char :=
  ((cs.dropWhile pyIsSpace).reverse.dropWhile pyIsSpace).reverse

/-- Model of `re.sub(r'[^\w\s]', '', ...)`: delete every character matching the
class `[^\w\s]`. -/
def reSubRemoveNonWordSpace (cs : List Char) : List Char :=
  cs.filter (fun c => !(!(pyIsWord c || pyIsSpace c)))

/-- Model of `text.lower().strip()` followed by the `re.sub` above
(`DedupChecker._fingerprint`'s `normalized`). -/
def fingerprintNormalize (s : String) : List Char :=
  reSubRemoveNonWordSpace (pyStrip (s.toList.map pyLowerChar))

/-- The text hashed by `DedupChecker._fingerprint`:
`f"{event_type}:{title or ''}:{message or ''}"`. -/
def fingerprintText (e : NotificationEvent) : String :=
  e.event_type ++ ":" ++ (e.title.getD "") ++ ":" ++ (e.message.getD "")

/-- Model of `DedupChecker._fingerprint`: SHA-256 of the normalized content,
hex digest truncated to its first 16 characters. -/
def fingerprint (e : NotificationEvent) : String :=
  String.mk ((hexOfBytes (sha256 ((fingerprintNormalize
    (fingerprintText e)).map Char.toNat))).toList.take 16)

/-! ## In-memory store (store.py, InMemoryStore) -/

/-- Association-list lookup taking the first binding (a `dict` whose update
conses a fresh binding on the front). -/
def alookup {α : Type} : List (String × α) → String → Option α
  | [], _ => none
  | (k, v) :: rest, key => if key = k then some v else alookup rest key

/-- Model of `InMemoryStore`: `_store` maps keys to `(value, expire_at)`; `_counters`
maps keys to `(count, expire_at)`.  (`_lists` is unused by the engine.) -/
structure InMemoryStore where
  kv : List (String × (String × ℚ)) := []
  counters : List (String × (ℕ × ℚ)) := []
deriving DecidableEq

def emptyStore : InMemoryStore := {}

/-- Model of `InMemoryStore._is_expired` on an entry's `expire_at`. -/
def entryExpired (expire_at now : ℚ) : Bool := decide (now > expire_at)

/-- Model of `InMemoryStore.set_nx`: set only if no live entry exists; returns whether
the write happened. -/
def InMemoryStore.set_nx (s : InMemoryStore) (key value : String) (ttl now : ℚ) :
    Bool × InMemoryStore :=
  match alookup s.kv key with
  | some (_, exp) =>
      if entryExpired exp now then
        (true, { s with kv := (key, (value, now + ttl)) :: s.kv })
      else
        (false, s)
  | none => (true, { s with kv := (key, (value, now + ttl)) :: s.kv })

/-- Model of `InMemoryStore.get`: live entries only. -/
def InMemoryStore.get (s : InMemoryStore) (key : String) (now : ℚ) : Option String :=
  match alookup s.kv key with
  | some (v, exp) => if entryExpired exp now then none else some v
  | none => none

/-- Model of `InMemoryStore.incr`: increment a counter, setting the TTL only on the
first increment of a window. -/
def InMemoryStore.incr (s : InMemoryStore) (key : String) (ttl now : ℚ) :
    ℕ × InMemoryStore :=
  match alookup s.counters key with
  | some (c, exp) =>
      if entryExpired exp now then
        (1, { s with counters := (key, (1, now + ttl)) :: s.counters })
      else
        (c + 1, { s with counters := (key, (c + 1, exp)) :: s.counters })
  | none => (1, { s with counters := (key, (1, now + ttl)) :: s.counters })

/-- Model of `InMemoryStore.get_count`: current live count or 0. -/
def InMemoryStore.get_count (s : InMemoryStore) (key : String) (now : ℚ) : ℕ :=
  match alookup s.counters key with
  | some (c, exp) => if entryExpired exp now then 0 else c
  | none => 0

/-! ## Dedup checker (store.py, DedupChecker) -/

def dedupKeyOf (user k : String) : String := "dedup:" ++ user ++ ":" ++ k

def fingerprintKeyOf (user fp : String) : String := "fingerprint:" ++ user ++ ":" ++ fp

/-- Key under which an event's content fingerprint is registered. -/
def fpKey (e : NotificationEvent) : String := fingerprintKeyOf e.user_id (fingerprint e)

/-- Layer 2 of `DedupChecker.check`: near-dedup via content fingerprint,
TTL 3600 s. -/
def dedupCheckLayer2 (e : NotificationEvent) (now : ℚ) (s : InMemoryStore) :
    Option String × InMemoryStore :=
  let r := s.set_nx (fpKey e) e.id 3600 now
  if r.1 then (none, r.2)
  else (some "Near-duplicate detected — very similar content sent in last 1h", r.2)

/-- Model of `DedupChecker.check`: explicit dedup key (TTL 86400 s, skipped when the
key is `None` or `""`, Python truthiness), then the content fingerprint. -/
def dedupCheck (e : NotificationEvent) (now : ℚ) (s : InMemoryStore) :
    Option String × InMemoryStore :=
  match e.dedupe_key with
  | some k =>
      if k = "" then dedupCheckLayer2 e now s
      else
        let r := s.set_nx (dedupKeyOf e.user_id k) e.id 86400 now
        if r.1 then dedupCheckLayer2 e now r.2
        else (some ("Exact duplicate — dedupe_key '" ++ k ++ "' already seen in last 24h"), r.2)
  | none => dedupCheckLayer2 e now s

/-! ## Frequency checker (store.py, FrequencyChecker) -/

/-- Model of `FrequencyChecker.CAPS[...]["max"]` with the `"default"` fallback. -/
def capMax (ty : String) : ℕ :=
  if ty = "promotion" then 2
  else if ty = "update" then 5
  else if ty = "reminder" then 3
  else if ty = "message" then 20
  else if ty = "system_event" then 10
  else if ty = "alert" then 10
  else 8

/-- Model of `FrequencyChecker.CAPS[...]["window"]`: 3600 for every entry including
the default. -/
def capWindow (_ty : String) : ℚ := 3600

/-- Model of `FrequencyChecker.DAILY_CHANNEL_CAPS.get(channel, 20)`. -/
def dailyChannelCap (ch : String) : ℕ :=
  if ch = "push" then 20
  else if ch = "sms" then 5
  else if ch = "email" then 10
  else if ch = "in_app" then 50
  else 20

def freqKeyOf (user ty : String) : String := "freq:" ++ user ++ ":" ++ ty

/-- Model of `date.today().isoformat()`: the current day number printed as
a string (distinct days give distinct strings). -/
def dayString (now : ℚ) : String := toString (Int.floor (now / 86400))

def dailyKeyOf (user ch : String) (now : ℚ) : String :=
  "daily_cap:" ++ user ++ ":" ++ ch ++ ":" ++ dayString now

/-- Model of `FrequencyChecker.check_frequency`: increments on every call; a reason is
returned only when the new count exceeds the cap. -/
def checkFrequency (e : NotificationEvent) (now : ℚ) (s : InMemoryStore) :
    Option String × InMemoryStore :=
  let r := s.incr (freqKeyOf e.user_id e.event_type) (capWindow e.event_type) now
  if capMax e.event_type < r.1 then
    (some ("Frequency cap exceeded (" ++ toString r.1 ++ "/" ++ toString (capMax e.event_type)
      ++ " '" ++ e.event_type ++ "' events in last hour)"), r.2)
  else (none, r.2)

/-- Model of `FrequencyChecker.check_daily_cap`: increments on every call, TTL 86400. -/
def checkDailyCap (e : NotificationEvent) (now : ℚ) (s : InMemoryStore) :
    Option String × InMemoryStore :=
  let r := s.incr (dailyKeyOf e.user_id e.channel now) 86400 now
  if dailyChannelCap e.channel < r.1 then
    (some ("Daily " ++ e.channel ++ " cap reached (" ++ toString r.1 ++ "/"
      ++ toString (dailyChannelCap e.channel) ++ ")"), r.2)
  else (none, r.2)

/-! ## Rules engine (rules.py) -/

/-- A condition's `value`: a scalar (string or `None`) or a list of them. -/
inductive CondVal where
  | scalar (v : Option String)
  | list (vs : List (Option String))
deriving DecidableEq

structure RuleCond where
  field : String
  op : String
  value : CondVal
deriving DecidableEq

structure Rule where
  name : String
  priority : ℤ
  conditions : List RuleCond
  action : String
  reason : String
deriving DecidableEq

/-- Model of `RulesEngine._get_field`: the event attribute of that name; fields the
engine's rules never use fall through to the (empty-for-our-purposes)
metadata lookup. -/
def getFieldVal (e : NotificationEvent) (f : String) : Option String :=
  if f = "event_type" then some e.event_type
  else if f = "priority_hint" then e.priority_hint
  else if f = "user_id" then some e.user_id
  else if f = "channel" then some e.channel
  else if f = "title" then e.title
  else if f = "message" then e.message
  else if f = "source" then e.source
  else if f = "dedupe_key" then e.dedupe_key
  else if f = "id" then some e.id
  else none

/-- One condition of `RulesEngine._matches`: `eq` / `in` / `neq`, any other
op never rejects.  A scalar never equals a list and is never a member of a
scalar. -/
def condHolds (e : NotificationEvent) (c : RuleCond) : Bool :=
  let actual := getFieldVal e c.field
  if c.op = "eq" then
    match c.value with
    | .scalar v => actual == v
    | .list _ => false
  else if c.op = "in" then
    match c.value with
    | .scalar _ => false
    | .list vs => vs.contains actual
  else if c.op = "neq" then
    match c.value with
    | .scalar v => actual != v
    | .list _ => true
  else true

def ruleMatches (e : NotificationEvent) (r : Rule) : Bool :=
  r.conditions.all (condHolds e)

/-- Model of `DEFAULT_RULES`, already in descending priority order (100, 99, 50, 40),
which the constructor's sort preserves. -/
def defaultRules : List Rule :=
  [{ name := "always_send_security_alerts", priority := 100,
     conditions := [⟨"event_type", "eq", .scalar (some "security_alert")⟩],
     action := "NOW", reason := "Security alerts always sent immediately" },
   { name := "always_send_critical", priority := 99,
     conditions := [⟨"priority_hint", "eq", .scalar (some "critical")⟩],
     action := "NOW", reason := "Critical priority always sent immediately" },
   { name := "suppress_promos_low_priority", priority := 50,
     conditions := [⟨"event_type", "eq", .scalar (some "promotion")⟩,
                    ⟨"priority_hint", "in", .list [some "low", none]⟩],
     action := "NEVER", reason := "Low-priority promotions suppressed to reduce noise" },
   { name := "defer_updates_to_digest", priority := 40,
     conditions := [⟨"event_type", "eq", .scalar (some "update")⟩],
     action := "LATER", reason := "Updates batched into daily digest" }]

/-- First matching rule as `(action, reason, name)` over a rule list. -/
def rulesFirstMatch (rules : List Rule) (e : NotificationEvent) :
    Option (String × String × String) :=
  match rules.find? (ruleMatches e) with
  | some r => some (r.action, r.reason, r.name)
  | none => none

/-- Model of `RulesEngine.evaluate` for the engine's rule set (`RulesEngine()` loads
exactly `DEFAULT_RULES`). -/
def rulesEval (e : NotificationEvent) : Option (String × String × String) :=
  rulesFirstMatch defaultRules e

/-! ## Circuit breaker (scorer.py, CircuitBreaker) -/

structure CircuitBreaker where
  failures : ℕ
  state : String
  last_failure_time : Option ℚ
  failure_threshold : ℕ
  reset_timeout : ℚ
deriving DecidableEq

/-- Model of `CircuitBreaker.__init__` (defaults 5 and 30). -/
def CircuitBreaker.init (failure_threshold : ℕ := 5) (reset_timeout : ℚ := 30) :
    CircuitBreaker :=
  ⟨0, "CLOSED", none, failure_threshold, reset_timeout⟩

/-- Model of `CircuitBreaker.can_attempt`: may transition OPEN → HALF-OPEN.  (In OPEN
states `last_failure_time` is always set; `getD 0` models the unreachable
`None` arithmetic.) -/
def CircuitBreaker.can_attempt (cb : CircuitBreaker) (now : ℚ) :
    Bool × CircuitBreaker :=
  if cb.state = "OPEN" then
    if cb.reset_timeout < now - (cb.last_failure_time.getD 0) then
      (true, { cb with state := "HALF-OPEN" })
    else
      (false, cb)
  else (true, cb)

/-- Model of `CircuitBreaker.record_success`: unconditionally reset. -/
def CircuitBreaker.record_success (cb : CircuitBreaker) : CircuitBreaker :=
  { cb with failures := 0, state := "CLOSED" }

/-- Model of `CircuitBreaker.record_failure`. -/
def CircuitBreaker.record_failure (cb : CircuitBreaker) (now : ℚ) : CircuitBreaker :=
  if cb.failure_threshold ≤ cb.failures + 1 then
    { cb with failures := cb.failures + 1, last_failure_time := some now, state := "OPEN" }
  else
    { cb with failures := cb.failures + 1, last_failure_time := some now }

/-! ## Scorers (scorer.py) -/

/-- Model of `DeterministicScorer.PRIORITY_SCORES.get(priority_hint, 0.40)`. -/
def priorityScore (p : Option String) : ℚ :=
  if p = some "critical" then 0.95
  else if p = some "high" then 0.78
  else if p = some "medium" then 0.52
  else if p = some "low" then 0.22
  else 0.40

/-- Model of `DeterministicScorer.CHANNEL_WEIGHTS.get(channel, 0.7)`. -/
def channelWeight (ch : String) : ℚ :=
  if ch = "push" then 1.0
  else if ch = "sms" then 0.9
  else if ch = "email" then 0.7
  else if ch = "in_app" then 0.5
  else 0.7

/-- Python `round(x, 3)` (half rounded up; ties at the half-ULP of a binary
double are not exercised by any claim). -/
def round3 (q : ℚ) : ℚ := (⌊q * 1000 + 1/2⌋ : ℚ) / 1000

def clamp01 (q : ℚ) : ℚ := max 0 (min 1 q)

/-- Two-decimal rendering used in reason strings (`f"{score:.2f}"`), for
scores in [0, 1]. -/
def fmt2 (q : ℚ) : String :=
  let m := (⌊q * 100 + 1/2⌋).toNat
  toString (m / 100) ++ "." ++ (if m % 100 < 10 then "0" else "") ++ toString (m % 100)

/-- The expiry bonus of `DeterministicScorer.score`: +0.30 under 10 minutes
left, +0.10 under 60; parse failures contribute nothing. -/
def expiryBonus (e : NotificationEvent) (now : ℚ) : ℚ :=
  match e.expires_at with
  | .absent => 0
  | .invalid => 0
  | .timeAt t =>
      let mins := (t - now) / 60
      if mins < 10 then 0.30 else if mins < 60 then 0.10 else 0

/-- Model of `DeterministicScorer.score`. -/
def deterministicScore (e : NotificationEvent) (recent_count : ℕ)
    (is_quiet_hours : Bool) (now : ℚ) : ScoreResult :=
  let base0 := priorityScore e.priority_hint - min ((recent_count : ℚ) * 0.08) 0.25
  let base1 := base0 + expiryBonus e now
  let base2 := if is_quiet_hours then base1 - 0.20 else base1
  let base3 := base2 * channelWeight e.channel
  let score := round3 (clamp01 base3)
  if 0.75 ≤ score then
    ⟨score, "NOW", "Score " ++ fmt2 score ++ " — high priority, sending immediately",
     false, true⟩
  else if 0.35 ≤ score then
    ⟨score, "LATER", "Score " ++ fmt2 score ++ " — medium priority, deferred",
     false, true⟩
  else
    ⟨score, "NEVER", "Score " ++ fmt2 score ++ " — low value, suppressed",
     false, true⟩

/-- Model of `AIScorer._fallback`: deterministic score with a `[FALLBACK]`-annotated
reason. -/
def aiFallback (e : NotificationEvent) (recent_count : ℕ) (is_quiet_hours : Bool)
    (now : ℚ) (cause : String) : ScoreResult :=
  let r := deterministicScore e recent_count is_quiet_hours now
  { r with reason := "[FALLBACK] " ++ cause ++ " — " ++ r.reason }

/-- Model of `TYPE_SCORES.get(event_type, 0.50)` of `AIScorer._call_ai`. -/
def typeScore (ty : String) : ℚ :=
  if ty = "message" then 0.70
  else if ty = "security_alert" then 0.95
  else if ty = "alert" then 0.85
  else if ty = "reminder" then 0.55
  else if ty = "update" then 0.40
  else if ty = "promotion" then 0.20
  else if ty = "system_event" then 0.60
  else 0.50

/-- Model of `AIScorer._call_ai` (the simulated contextual scorer; it never raises). -/
def callAI (e : NotificationEvent) (recent_count : ℕ) (is_quiet_hours : Bool) :
    ScoreResult :=
  let s0 := typeScore e.event_type
  let reasons0 := ["event_type='" ++ e.event_type ++ "'"]
  let (s1, reasons1) :=
    if e.priority_hint = some "critical" then
      (max s0 0.93, reasons0 ++ ["critical priority"])
    else if e.priority_hint = some "high" then (max s0 0.78, reasons0)
    else if e.priority_hint = some "low" then (min s0 0.35, reasons0)
    else (s0, reasons0)
  let (s2, reasons2) :=
    if 3 < recent_count then
      (s1 - 0.12 * ((recent_count : ℚ) - 3),
       reasons1 ++ [toString recent_count ++ " recent similar events"])
    else (s1, reasons1)
  let (s3, reasons3) :=
    if is_quiet_hours &&
        !(e.priority_hint = some "critical" || e.priority_hint = some "high") then
      (s2 - 0.18, reasons2 ++ ["quiet hours"])
    else (s2, reasons2)
  let score := round3 (clamp01 s3)
  let action := if 0.75 ≤ score then "NOW" else if 0.35 ≤ score then "LATER" else "NEVER"
  ⟨score, action,
   "[AI] Score " ++ fmt2 score ++ ": " ++ String.intercalate ", " reasons3,
   true, false⟩

/-- Model of `AIScorer.score`: `can_attempt` runs first (and may mutate the breaker);
with the breaker denying or `AI_AVAILABLE = false` the deterministic fallback
answers; otherwise the simulated AI succeeds and `record_success` runs. -/
def aiScore (ai_available : Bool) (cb : CircuitBreaker) (e : NotificationEvent)
    (recent_count : ℕ) (is_quiet_hours : Bool) (now : ℚ) :
    ScoreResult × CircuitBreaker :=
  let att := cb.can_attempt now
  if !att.1 || !ai_available then
    (aiFallback e recent_count is_quiet_hours now "AI circuit breaker OPEN", att.2)
  else
    (callAI e recent_count is_quiet_hours, att.2.record_success)

/-! ## Prioritization engine (prioritizer.py) -/

/-- Engine-owned state threaded through `evaluate`: the KV store, the AI
scorer's breaker, and the audit log. -/
structure EngineState where
  store : InMemoryStore := {}
  breaker : CircuitBreaker := CircuitBreaker.init
  audit : List Decision := []
deriving DecidableEq

def isHighPriority (e : NotificationEvent) : Bool :=
  e.priority_hint == some "critical" || e.priority_hint == some "high"

/-- Model of `PrioritizationEngine._decide`: the safety net rewrites a NEVER for a
critical/high event into NOW at score 0.9 with a prefixed reason, then the
decision is recorded to the audit log. -/
def decideStep (e : NotificationEvent) (action : String) (score : ℚ) (reason : String)
    (rule_matched : Option String) (ai_used fallback_mode : Bool)
    (st : EngineState) : Decision × EngineState :=
  let t : String × ℚ × String :=
    if action == "NEVER" && isHighPriority e then
      ("NOW", 0.9,
       "[SAFETY NET] High-priority event cannot be suppressed. Original: " ++ reason)
    else (action, score, reason)
  let d : Decision :=
    ⟨e.id, e.user_id, t.1, t.2.1, t.2.2, rule_matched, ai_used, fallback_mode⟩
  (d, { st with audit := st.audit ++ [d] })

/-- Step 6 of `PrioritizationEngine.evaluate`: if a rule suggested LATER, the
scorer said NOW and the event is not critical/high, downgrade to LATER with
the rule's reason; otherwise keep the scorer's action and reason. -/
def mergeRule (rule_result : Option (String × String × String))
    (sact srsn : String) (hi : Bool) : String × String :=
  match rule_result with
  | some (ract, rreason, _) =>
      if ract == "LATER" && sact == "NOW" && !hi then
        ("LATER", rreason ++ " (overrides AI NOW suggestion)")
      else (sact, srsn)
  | none => (sact, srsn)

/-- Steps 4–7 of `PrioritizationEngine.evaluate` (fatigue, AI scoring, the
rule/score merge), entered with the rule result of step 3. -/
def evaluateFrom (ai_available : Bool) (e : NotificationEvent) (now : ℚ)
    (rule_result : Option (String × String × String)) (st : EngineState) :
    Decision × EngineState :=
  let fr := checkFrequency e now st.store
  let dr := checkDailyCap e now fr.2
  let st1 : EngineState := { st with store := dr.2 }
  match fr.1, isHighPriority e with
  | some freq_reason, false =>
      if e.event_type = "promotion" ∨ e.event_type = "system_event" then
        decideStep e "NEVER" 0.1 freq_reason (some "frequency_cap") false false st1
      else
        decideStep e "LATER" 0.3 (freq_reason ++ " — batched to digest")
          (some "frequency_cap") false false st1
  | _, _ =>
    match dr.1, isHighPriority e with
    | some daily_reason, false =>
        decideStep e "LATER" 0.3 (daily_reason ++ " — batched to digest")
          (some "daily_cap") false false st1
    | _, _ =>
      let recent_count := st1.store.get_count (freqKeyOf e.user_id e.event_type) now
      let sres := aiScore ai_available st1.breaker e recent_count e.quiet_hours now
      let st2 : EngineState := { st1 with breaker := sres.2 }
      let final := mergeRule rule_result sres.1.action sres.1.reason (isHighPriority e)
      decideStep e final.1 sres.1.score final.2 (rule_result.map (fun r => r.2.2))
        sres.1.ai_used sres.1.fallback_mode st2

/-- Model of `PrioritizationEngine.evaluate`: expiry, dedup, hard rules, then the
fatigue/scoring tail.  `ai_available` is `AIScorer.AI_AVAILABLE`. -/
def evaluate (ai_available : Bool) (e : NotificationEvent) (now : ℚ)
    (st : EngineState) : Decision × EngineState :=
  if e.is_expired now then
    decideStep e "NEVER" 0 "Event expired before processing" none false false st
  else
    let d := dedupCheck e now st.store
    let st1 : EngineState := { st with store := d.2 }
    match d.1 with
    | some dedup_reason =>
        decideStep e "NEVER" 0 dedup_reason (some "dedup_check") false false st1
    | none =>
      match rulesEval e with
      | some (ract, rreason, rname) =>
          if ract = "NOW" then
            decideStep e "NOW" 1 rreason (some rname) false false st1
          else if ract = "NEVER" then
            decideStep e "NEVER" 0 rreason (some rname) false false st1
          else
            evaluateFrom ai_available e now (some (ract, rreason, rname)) st1
      | none => evaluateFrom ai_available e now none st1

/-- Evaluate a list of timed events in order, keeping only the state. -/
def runSeq (ai_available : Bool) (st : EngineState)
    (ps : List (NotificationEvent × ℚ)) : EngineState :=
  ps.foldl (fun s p => (evaluate ai_available p.1 p.2 s).2) st

/-! ## Audit log (audit.py) -/

/-- Python `lst[i:]` for an integer `i` (negative indices count from the
end). -/
def pySliceFrom (i : ℤ) (l : List Decision) : List Decision :=
  if 0 ≤ i then l.drop i.toNat
  else l.drop (max 0 ((l.length : ℤ) + i)).toNat

/-- The matches of `AuditLog.get_user_history` before the slice: user filter,
then the action filter (skipped for `None` or `""`, Python truthiness). -/
def auditMatches (log : List Decision) (user_id : String) (action : Option String) :
    List Decision :=
  let byUser := log.filter (fun d => d.user_id == user_id)
  match action with
  | some a => if a = "" then byUser else byUser.filter (fun d => d.action == a)
  | none => byUser

/-- Model of `AuditLog.get_user_history`: the matches sliced with `[-limit:]`. -/
def getUserHistory (log : List Decision) (user_id : String)
    (action : Option String) (limit : ℤ) : List Decision :=
  pySliceFrom (-limit) (auditMatches log user_id action)

/-! ## Helper lemmas -/

theorem alookup_cons {α : Type} (k : String) (v : α) (rest : List (String × α))
    (key : String) :
    alookup ((k, v) :: rest) key = if key = k then some v else alookup rest key := rfl

theorem string_data_append (a b : String) : (a ++ b).data = a.data ++ b.data := rfl

/-- Two strings with different first characters differ, whatever follows. -/
theorem string_append_ne_of_head_ne {c₁ c₂ : Char} {p₁ p₂ : String} {x y : String}
    (h₁ : p₁.data.head? = some c₁) (h₂ : p₂.data.head? = some c₂) (hc : c₁ ≠ c₂) :
    p₁ ++ x ≠ p₂ ++ y := by
  intro h
  apply hc
  have hd := congrArg (fun s => s.data.head?) h
  simp only [string_data_append] at hd
  cases hp₁ : p₁.data with
  | nil => simp [hp₁] at h₁
  | cons a as =>
    cases hp₂ : p₂.data with
    | nil => simp [hp₂] at h₂
    | cons b bs =>
      simp [hp₁] at h₁
      simp [hp₂] at h₂
      rw [hp₁, hp₂] at hd
      simp at hd
      rw [← h₁, ← h₂]
      exact hd

theorem freqKey_ne_dailyKey (u ty u' ch : String) (now : ℚ) :
    freqKeyOf u ty ≠ dailyKeyOf u' ch now := by
  unfold freqKeyOf dailyKeyOf
  exact @string_append_ne_of_head_ne 'f' 'd' "freq:" "daily_cap:" _ _ rfl rfl
    (by decide)

theorem fingerprintKey_ne_dedupKey (u fp u' k : String) :
    fingerprintKeyOf u fp ≠ dedupKeyOf u' k := by
  unfold fingerprintKeyOf dedupKeyOf
  exact @string_append_ne_of_head_ne 'f' 'd' "fingerprint:" "dedup:" _ _ rfl rfl
    (by decide)

theorem string_append_right_cancel {a x y : String} (h : a ++ x = a ++ y) : x = y := by
  have hd := congrArg String.data h
  simp only [string_data_append] at hd
  exact String.ext (List.append_cancel_left hd)

theorem fingerprintKey_inj {u fp fp' : String} (h : fp ≠ fp') :
    fingerprintKeyOf u fp ≠ fingerprintKeyOf u fp' := by
  unfold fingerprintKeyOf
  intro hc
  apply h
  have h1 : "fingerprint:" ++ u ++ ":" ++ fp = "fingerprint:" ++ (u ++ (":" ++ fp)) := by
    simp [String.append_assoc]
  have h2 : "fingerprint:" ++ u ++ ":" ++ fp' = "fingerprint:" ++ (u ++ (":" ++ fp')) := by
    simp [String.append_assoc]
  rw [h1, h2] at hc
  exact string_append_right_cancel
    (string_append_right_cancel (string_append_right_cancel hc))

/-! ## C8 — `InMemoryStore.incr` first-write TTL -/

/-- C8: `incr(key, ttl)` with no live counter entry stores `(1, now + ttl)`
and returns 1; with a live entry `(old, expire_at)` it returns `old + 1` and
leaves the stored `expire_at` unchanged — the TTL is set only on the first
increment of a window and never slides. -/
theorem C8_incr_first_write_ttl (s : InMemoryStore) (key : String) (ttl now : ℚ) :
    (∀ c E, alookup s.counters key = some (c, E) → entryExpired E now = false →
        (s.incr key ttl now).1 = c + 1 ∧
        alookup (s.incr key ttl now).2.counters key = some (c + 1, E)) ∧
    ((alookup s.counters key = none ∨
        ∃ c E, alookup s.counters key = some (c, E) ∧ entryExpired E now = true) →
        (s.incr key ttl now).1 = 1 ∧
        alookup (s.incr key ttl now).2.counters key = some (1, now + ttl)) := by
  constructor
  · intro c E hfound hlive
    simp [InMemoryStore.incr, hfound, hlive, alookup]
  · rintro (hnone | ⟨c, E, hfound, hexp⟩)
    · simp [InMemoryStore.incr, hnone, alookup]
    · simp [InMemoryStore.incr, hfound, hexp, alookup]

/-- Witness for C8 at a concrete store: a live entry `(2, 100)` under `"k"`
at time 50 increments to 3 keeping expiry 100, and a fresh key starts at
`(1, now + ttl)`. -/
theorem C8_incr_first_write_ttl_witness :
    ((InMemoryStore.incr ⟨[], [("k", (2, 100))]⟩ "k" 3600 50).1 = 2 + 1 ∧
      alookup (InMemoryStore.incr ⟨[], [("k", (2, 100))]⟩ "k" 3600 50).2.counters "k" =
        some (2 + 1, 100)) ∧
    ((InMemoryStore.incr ⟨[], []⟩ "k" 3600 50).1 = 1 ∧
      alookup (InMemoryStore.incr ⟨[], []⟩ "k" 3600 50).2.counters "k" =
        some (1, 50 + 3600)) := by
  refine ⟨(C8_incr_first_write_ttl ⟨[], [("k", (2, 100))]⟩ "k" 3600 50).1 2 100
    (of_decide_eq_true (by with_unfolding_all rfl))
    (of_decide_eq_true (by with_unfolding_all rfl)),
    (C8_incr_first_write_ttl ⟨[], []⟩ "k" 3600 50).2
      (Or.inl (of_decide_eq_true (by with_unfolding_all rfl)))⟩

/-! ## C10 — `AuditLog.get_user_history` with `limit = 0` -/

/-- C10: with `limit = 0` the slice `results[-limit:]` is `results[0:]`, so
every matching decision is returned in insertion order; for a negative limit
the "last `limit` matches" bound is likewise not enforced (the result drops
the first `|limit|` matches instead). -/
theorem C10_get_user_history_limit_zero (log : List Decision) (u : String)
    (act : Option String) :
    getUserHistory log u act 0 = auditMatches log u act ∧
    ∀ limit : ℤ, limit < 0 →
      getUserHistory log u act limit = (auditMatches log u act).drop (-limit).toNat := by
  constructor
  · simp [getUserHistory, pySliceFrom]
  · intro limit hneg
    unfold getUserHistory pySliceFrom
    rw [if_pos (by omega)]

/-- Witness for C10: a two-decision log for user `"u"`; `limit = 0` returns
both matches and `limit = -1` drops the first. -/
theorem C10_get_user_history_witness :
    getUserHistory
        [⟨"e1", "u", "NOW", 1, "r1", none, false, false⟩,
         ⟨"e2", "u", "LATER", 0.3, "r2", none, false, false⟩] "u" none 0 =
      [⟨"e1", "u", "NOW", 1, "r1", none, false, false⟩,
       ⟨"e2", "u", "LATER", 0.3, "r2", none, false, false⟩] ∧
    getUserHistory
        [⟨"e1", "u", "NOW", 1, "r1", none, false, false⟩,
         ⟨"e2", "u", "LATER", 0.3, "r2", none, false, false⟩] "u" none (-1) =
      [⟨"e2", "u", "LATER", 0.3, "r2", none, false, false⟩] := by
  have h := C10_get_user_history_limit_zero
    [⟨"e1", "u", "NOW", 1, "r1", none, false, false⟩,
     ⟨"e2", "u", "LATER", 0.3, "r2", none, false, false⟩] "u" none
  refine ⟨?_, ?_⟩
  · rw [h.1]
    with_unfolding_all rfl
  · rw [h.2 (-1) (by decide)]
    with_unfolding_all rfl

/-! ## C6 — determinism of the deterministic scorer -/

/-- The event exhibiting the clock dependence of `DeterministicScorer.score`:
medium priority, push channel, expiring at t = 3600. -/
def c6Event : NotificationEvent :=
  { user_id := "u", event_type := "reminder", channel := "push",
    priority_hint := some "medium", expires_at := .timeAt 3600 }

/-- Counterexample to C6 as stated: `DeterministicScorer.score` also reads
the clock, so two calls with identical `(event, recent_count,
is_quiet_hours)` but made at different times return different results when
`expires_at` is set — here 60 minutes left (no urgency bonus, LATER at 0.52)
versus 5 minutes left (+0.30, NOW at 0.82). -/
theorem C6_counterexample :
    deterministicScore c6Event 0 false 0 ≠ deterministicScore c6Event 0 false 3300 ∧
    (deterministicScore c6Event 0 false 0).action = "LATER" ∧
    (deterministicScore c6Event 0 false 3300).action = "NOW" :=
  of_decide_eq_true (by with_unfolding_all rfl)

/-- C6 amended: `DeterministicScorer.score` is a pure function of
`(event, recent_count, is_quiet_hours)` *and the current clock time*; two
calls with identical arguments agree whenever `expires_at` is unset or
unparseable (and trivially whenever they read the same clock), but may
differ across call times when `expires_at` is a parsed timestamp. -/
theorem C6_deterministic_scorer_no_expiry (e : NotificationEvent) (rc : ℕ)
    (q : Bool) (t₁ t₂ : ℚ)
    (h : e.expires_at = .absent ∨ e.expires_at = .invalid) :
    deterministicScore e rc q t₁ = deterministicScore e rc q t₂ := by
  have hb : ∀ t : ℚ, expiryBonus e t = 0 := by
    intro t
    rcases h with h | h <;> simp [expiryBonus, h]
  unfold deterministicScore
  rw [hb t₁, hb t₂]

/-- Witness for C6's amended theorem: an event without `expires_at` scores
identically at times 0 and 1000000. -/
theorem C6_deterministic_scorer_witness :
    deterministicScore
        { user_id := "u", event_type := "message", channel := "push",
          priority_hint := some "medium" } 1 false 0 =
      deterministicScore
        { user_id := "u", event_type := "message", channel := "push",
          priority_hint := some "medium" } 1 false 1000000 :=
  C6_deterministic_scorer_no_expiry _ 1 false 0 1000000 (Or.inl rfl)

/-! ## C9 — circuit breaker lifecycle -/

/-- Breaker states reachable from `CircuitBreaker()` by any interleaving of
`can_attempt`, `record_success` and `record_failure`. -/
inductive CBReachable : CircuitBreaker → Prop where
  | init (th : ℕ) (rt : ℚ) : CBReachable (CircuitBreaker.init th rt)
  | attempt (cb : CircuitBreaker) (now : ℚ) :
      CBReachable cb → CBReachable (cb.can_attempt now).2
  | success (cb : CircuitBreaker) : CBReachable cb → CBReachable cb.record_success
  | failure (cb : CircuitBreaker) (now : ℚ) :
      CBReachable cb → CBReachable (cb.record_failure now)

/-- In every reachable non-CLOSED breaker state the failure count has met the
threshold (failures only reset on `record_success`, which closes). -/
theorem cbReachable_threshold {cb : CircuitBreaker} (h : CBReachable cb) :
    (cb.state = "OPEN" ∨ cb.state = "HALF-OPEN") →
      cb.failure_threshold ≤ cb.failures := by
  induction h with
  | init th rt => rintro (h | h) <;> simp [CircuitBreaker.init] at h
  | attempt cb now _ ih =>
      unfold CircuitBreaker.can_attempt
      by_cases hOpen : cb.state = "OPEN"
      · rw [if_pos hOpen]
        by_cases hrt : cb.reset_timeout < now - cb.last_failure_time.getD 0
        · rw [if_pos hrt]
          intro _
          simpa using ih (Or.inl hOpen)
        · rw [if_neg hrt]
          exact ih
      · rw [if_neg hOpen]
        exact ih
  | success cb _ _ =>
      rintro (h | h) <;> simp [CircuitBreaker.record_success] at h
  | failure cb now _ ih =>
      unfold CircuitBreaker.record_failure
      by_cases hth : cb.failure_threshold ≤ cb.failures + 1
      · rw [if_pos hth]
        intro _
        simpa using hth
      · rw [if_neg hth]
        intro hstate
        have := ih hstate
        simp only []
        omega

/-- Folding a list of `record_failure` timestamps over a breaker. -/
def applyFailures (ts : List ℚ) (cb : CircuitBreaker) : CircuitBreaker :=
  ts.foldl (fun c t => c.record_failure t) cb

theorem record_failure_failures (cb : CircuitBreaker) (now : ℚ) :
    (cb.record_failure now).failures = cb.failures + 1 := by
  unfold CircuitBreaker.record_failure; split <;> rfl

theorem record_failure_threshold (cb : CircuitBreaker) (now : ℚ) :
    (cb.record_failure now).failure_threshold = cb.failure_threshold := by
  unfold CircuitBreaker.record_failure; split <;> rfl

theorem record_failure_reset (cb : CircuitBreaker) (now : ℚ) :
    (cb.record_failure now).reset_timeout = cb.reset_timeout := by
  unfold CircuitBreaker.record_failure; split <;> rfl

theorem record_failure_lastf (cb : CircuitBreaker) (now : ℚ) :
    (cb.record_failure now).last_failure_time = some now := by
  unfold CircuitBreaker.record_failure; split <;> rfl

theorem record_failure_state_open (cb : CircuitBreaker) (now : ℚ)
    (h : cb.failure_threshold ≤ cb.failures + 1) :
    (cb.record_failure now).state = "OPEN" := by
  unfold CircuitBreaker.record_failure; rw [if_pos h]

theorem applyFailures_spec (ts : List ℚ) (cb : CircuitBreaker) :
    (applyFailures ts cb).failures = cb.failures + ts.length ∧
    (applyFailures ts cb).failure_threshold = cb.failure_threshold ∧
    (applyFailures ts cb).reset_timeout = cb.reset_timeout ∧
    (applyFailures ts cb).last_failure_time =
      (match ts.getLast? with
       | some t => some t
       | none => cb.last_failure_time) ∧
    (ts ≠ [] → cb.failure_threshold ≤ cb.failures + ts.length →
      (applyFailures ts cb).state = "OPEN") := by
  induction ts using List.reverseRecOn with
  | nil => simp [applyFailures]
  | append_singleton ts t ih =>
      obtain ⟨ih1, ih2, ih3, _, _⟩ := ih
      have step : applyFailures (ts ++ [t]) cb = (applyFailures ts cb).record_failure t := by
        simp [applyFailures, List.foldl_append]
      refine ⟨?_, ?_, ?_, ?_, ?_⟩
      · rw [step, record_failure_failures, ih1]
        simp
        omega
      · rw [step, record_failure_threshold, ih2]
      · rw [step, record_failure_reset, ih3]
      · rw [step, record_failure_lastf]
        simp
      · intro _ hth
        rw [step]
        apply record_failure_state_open
        rw [ih1, ih2]
        simp only [List.length_append, List.length_cons, List.length_nil] at hth
        omega

/-- C9: from CLOSED, `failure_threshold` consecutive `record_failure`s (no
intervening success) open the breaker; `can_attempt` then returns false while
`now - last_failure ≤ reset_timeout` and, once strictly more has elapsed,
returns true and moves to HALF-OPEN.  `record_success` always zeroes failures
and closes.  In every reachable HALF-OPEN state one `record_failure` reopens
the breaker. -/
theorem C9_circuit_breaker (th : ℕ) (rt : ℚ) (ts : List ℚ) (tlast : ℚ)
    (hlast : ts.getLast? = some tlast) (hlen : ts.length = th) :
    ((applyFailures ts (CircuitBreaker.init th rt)).state = "OPEN" ∧
     (∀ now : ℚ, now - tlast ≤ rt →
        ((applyFailures ts (CircuitBreaker.init th rt)).can_attempt now).1 = false) ∧
     (∀ now : ℚ, rt < now - tlast →
        ((applyFailures ts (CircuitBreaker.init th rt)).can_attempt now).1 = true ∧
        ((applyFailures ts (CircuitBreaker.init th rt)).can_attempt now).2.state =
          "HALF-OPEN")) ∧
    (∀ cb : CircuitBreaker,
      cb.record_success.failures = 0 ∧ cb.record_success.state = "CLOSED") ∧
    (∀ cb : CircuitBreaker, CBReachable cb → cb.state = "HALF-OPEN" →
      ∀ now : ℚ, (cb.record_failure now).state = "OPEN") := by
  have hne : ts ≠ [] := by
    intro h; rw [h] at hlast; simp at hlast
  obtain ⟨h1, h2, h3, h4, h5⟩ := applyFailures_spec ts (CircuitBreaker.init th rt)
  have hopen : (applyFailures ts (CircuitBreaker.init th rt)).state = "OPEN" := by
    apply h5 hne
    simp [CircuitBreaker.init, hlen]
  have hlf : (applyFailures ts (CircuitBreaker.init th rt)).last_failure_time =
      some tlast := by
    rw [h4, hlast]
  refine ⟨⟨hopen, ?_, ?_⟩, ?_, ?_⟩
  · intro now hle
    unfold CircuitBreaker.can_attempt
    rw [if_pos hopen, h3, hlf]
    simp only [Option.getD_some]
    rw [if_neg (by simp [CircuitBreaker.init]; linarith)]
  · intro now hgt
    unfold CircuitBreaker.can_attempt
    rw [if_pos hopen, h3, hlf]
    simp only [Option.getD_some]
    rw [if_pos (by simp [CircuitBreaker.init]; linarith)]
    exact ⟨rfl, rfl⟩
  · intro cb
    exact ⟨rfl, rfl⟩
  · intro cb hreach hho now
    have hth : cb.failure_threshold ≤ cb.failures := cbReachable_threshold hreach (Or.inr hho)
    unfold CircuitBreaker.record_failure
    rw [if_pos (by omega)]

/-- Witness for C9 at the defaults (threshold 5, reset 30 s): five failures at
times 0..4 open the breaker; at time 34 (30 s elapsed) attempts are still
denied, at time 34.5 the breaker half-opens and allows one; `record_success`
closes a concrete open breaker; a reachable HALF-OPEN breaker reopens on
failure. -/
theorem C9_circuit_breaker_witness :
    ((applyFailures [0, 1, 2, 3, 4] (CircuitBreaker.init 5 30)).can_attempt 34).1 =
      false ∧
    ((applyFailures [0, 1, 2, 3, 4] (CircuitBreaker.init 5 30)).can_attempt 34.5).1 =
      true ∧
    ((applyFailures [0, 1, 2, 3, 4] (CircuitBreaker.init 5 30)).can_attempt 34.5).2.state =
      "HALF-OPEN" ∧
    (CircuitBreaker.record_success ⟨7, "OPEN", some 4, 5, 30⟩).failures = 0 ∧
    (CircuitBreaker.record_success ⟨7, "OPEN", some 4, 5, 30⟩).state = "CLOSED" ∧
    (CircuitBreaker.record_failure
      ((applyFailures [0, 1, 2, 3, 4] (CircuitBreaker.init 5 30)).can_attempt 34.5).2
      40).state = "OPEN" := by
  have h := C9_circuit_breaker 5 30 [0, 1, 2, 3, 4] 4 (by decide) (by decide)
  have hho := (h.1.2.2 34.5 (of_decide_eq_true (by with_unfolding_all rfl)))
  refine ⟨h.1.2.1 34 (of_decide_eq_true (by with_unfolding_all rfl)),
    hho.1, hho.2, (h.2.1 ⟨7, "OPEN", some 4, 5, 30⟩).1, (h.2.1 _).2, ?_⟩
  · apply h.2.2 _ ?_ hho.2 40
    exact CBReachable.attempt _ 34.5
      (CBReachable.failure _ 4 (CBReachable.failure _ 3 (CBReachable.failure _ 2
        (CBReachable.failure _ 1 (CBReachable.failure _ 0 (CBReachable.init 5 30))))))

/-! ## C7 — the content fingerprint's normalization -/

/-- The normalization C7 describes: lowercase, trim, then remove every
character that is neither alphanumeric nor whitespace — in particular,
underscores are removed. -/
def claimNormalize (s : String) : List Char :=
  (pyStrip (s.toList.map pyLowerChar)).filter (fun c => c.isAlphanum || pyIsSpace c)

/-- The fingerprint C7 claims the code computes: SHA-256 over the
claim's normalization, truncated to 16 hex characters. -/
def claimFingerprint (e : NotificationEvent) : String :=
  String.mk ((hexOfBytes (sha256 ((claimNormalize
    (fingerprintText e)).map Char.toNat))).toList.take 16)

/-- Event separating the implementation from C7's description: its
normalized text is `"alerta_b"` for the code (Python's `\w` keeps the
underscore) but `"alertab"` under the claim's normalization. -/
def c7Event : NotificationEvent :=
  { user_id := "u", event_type := "alert", channel := "push", title := some "a_b" }

set_option maxRecDepth 100000 in
/-- Counterexample to C7 as stated: `DedupChecker._fingerprint` strips with
`re.sub(r'[^\w\s]', '', ...)`, and `\w` *keeps* underscores, so on an event
whose content contains an underscore the computed fingerprint differs from
the claim's (which removes underscores). -/
theorem C7_counterexample :
    fingerprint c7Event ≠ claimFingerprint c7Event ∧
    fingerprintNormalize (fingerprintText c7Event) = "alerta_b".toList ∧
    claimNormalize (fingerprintText c7Event) = "alertab".toList ∧
    fingerprint c7Event = "13a00a0c8f5645de" ∧
    claimFingerprint c7Event = "fc223b66ca1ef50d" :=
  of_decide_eq_true (by with_unfolding_all rfl)

/-- The fingerprint under C7's description amended on the one point the
counterexample forces: underscores are word characters and are kept;
everything that is neither alphanumeric, nor an underscore, nor whitespace
is removed. -/
def amendedFingerprint (e : NotificationEvent) : String :=
  String.mk ((hexOfBytes (sha256 (((pyStrip ((fingerprintText e).toList.map pyLowerChar)).filter
    (fun c => c.isAlphanum || c == '_' || pyIsSpace c)).map Char.toNat))).toList.take 16)

/-- C7 amended: for every event the dedup content fingerprint equals the
first 16 hex characters of SHA-256 over the event text lowercased, trimmed,
with every character that is neither alphanumeric, nor an underscore, nor
whitespace removed. -/
theorem C7_fingerprint_amended (e : NotificationEvent) :
    fingerprint e = amendedFingerprint e := by
  unfold fingerprint amendedFingerprint fingerprintNormalize reSubRemoveNonWordSpace
  have hpred : ∀ c : Char,
      (!(!(pyIsWord c || pyIsSpace c))) = (c.isAlphanum || c == '_' || pyIsSpace c) := by
    intro c
    simp [pyIsWord, Bool.or_assoc]
  rw [List.filter_congr (fun c _ => hpred c)]

/-! ## C1 — urgent events are never suppressed -/

theorem decideStep_action_ne_never {e : NotificationEvent} {a : String} {sc : ℚ}
    {r : String} {rm : Option String} {au fb : Bool} {st : EngineState}
    (h : isHighPriority e = true) :
    (decideStep e a sc r rm au fb st).1.action ≠ "NEVER" := by
  unfold decideStep
  cases heq : a == "NEVER" with
  | true => simp [heq, h]
  | false =>
      simp only [heq, h, Bool.false_and, Bool.and_true, if_neg Bool.false_ne_true]
      intro hc
      rw [hc] at heq
      simp at heq

theorem decideStep_safety_net {e : NotificationEvent} (sc : ℚ) (r : String)
    {rm : Option String} {au fb : Bool} {st : EngineState}
    (h : isHighPriority e = true) :
    (decideStep e "NEVER" sc r rm au fb st).1 =
      ⟨e.id, e.user_id, "NOW", 0.9,
       "[SAFETY NET] High-priority event cannot be suppressed. Original: " ++ r,
       rm, au, fb⟩ := by
  simp [decideStep, h]

theorem evaluate_ne_never_of_high (ai : Bool) (e : NotificationEvent) (now : ℚ)
    (st : EngineState) (h : isHighPriority e = true) :
    (evaluate ai e now st).1.action ≠ "NEVER" := by
  unfold evaluate evaluateFrom
  dsimp only
  repeat
    first
      | exact decideStep_action_ne_never h
      | split
      | dsimp only

/-- C1: a non-expired event with `priority_hint` critical or high never gets
action NEVER from `evaluate`, because every return path runs through
`_decide`, whose safety net rewrites a tentative NEVER for such an event into
NOW at score 0.9 with the reason prefixed
`[SAFETY NET] High-priority event cannot be suppressed. Original: `. -/
theorem C1_high_priority_never_suppressed (ai : Bool) (e : NotificationEvent)
    (now : ℚ) (st : EngineState)
    (hp : e.priority_hint = some "critical" ∨ e.priority_hint = some "high")
    (_hx : e.is_expired now = false) :
    (evaluate ai e now st).1.action ≠ "NEVER" ∧
    ∀ (sc : ℚ) (reason : String) (rm : Option String) (au fb : Bool)
      (st' : EngineState),
      (decideStep e "NEVER" sc reason rm au fb st').1 =
        ⟨e.id, e.user_id, "NOW", 0.9,
         "[SAFETY NET] High-priority event cannot be suppressed. Original: " ++ reason,
         rm, au, fb⟩ := by
  have h : isHighPriority e = true := by
    rcases hp with h | h <;> simp [isHighPriority, h]
  exact ⟨evaluate_ne_never_of_high ai e now st h,
    fun sc r rm au fb st' => decideStep_safety_net sc r h⟩

def c1Event : NotificationEvent :=
  { user_id := "u9", event_type := "payment", channel := "push",
    priority_hint := some "high", title := some "t" }

set_option maxRecDepth 100000 in
/-- Witness for C1 at a concrete high-priority, non-expired event. -/
theorem C1_high_priority_never_suppressed_witness :
    (evaluate true c1Event 0 {}).1.action ≠ "NEVER" ∧
    (decideStep c1Event "NEVER" 0 "some reason" none false false {}).1 =
      ⟨c1Event.id, c1Event.user_id, "NOW", 0.9,
       "[SAFETY NET] High-priority event cannot be suppressed. Original: " ++
         "some reason", none, false, false⟩ := by
  have h := C1_high_priority_never_suppressed true c1Event 0 {} (Or.inr rfl) rfl
  exact ⟨h.1, h.2 0 "some reason" none false false {}⟩

/-! ## C2 — expired events -/

def c2Event : NotificationEvent :=
  { user_id := "u", event_type := "alert", channel := "push",
    priority_hint := some "critical", expires_at := .timeAt 0, title := some "t" }

/-- Counterexample to C2 as stated: an *expired* event with
`priority_hint = "critical"` does not get NEVER — the safety net in `_decide`
also applies to the expiry return, rewriting it to NOW at 0.9 with the
`[SAFETY NET]` reason. -/
theorem C2_counterexample :
    c2Event.is_expired 1 = true ∧
    c2Event.priority_hint = some "critical" ∧
    (evaluate true c2Event 1 {}).1.action = "NOW" ∧
    (evaluate true c2Event 1 {}).1.action ≠ "NEVER" ∧
    (evaluate true c2Event 1 {}).1.score = 0.9 ∧
    (evaluate true c2Event 1 {}).1.reason =
      "[SAFETY NET] High-priority event cannot be suppressed. Original: Event expired before processing" :=
  of_decide_eq_true (by with_unfolding_all rfl)

/-- C2 amended: for every expired event with `priority_hint` outside
{critical, high}, `evaluate` returns NEVER, score 0, reason
"Event expired before processing" and `rule_matched = none`; for an expired
critical/high event the safety net instead yields NOW, score 0.9, with that
reason behind the `[SAFETY NET]` prefix (still `rule_matched = none`). -/
theorem C2_expired_amended (ai : Bool) (e : NotificationEvent) (now : ℚ)
    (st : EngineState) (hx : e.is_expired now = true) :
    (isHighPriority e = false →
      (evaluate ai e now st).1 =
        ⟨e.id, e.user_id, "NEVER", 0, "Event expired before processing",
         none, false, false⟩) ∧
    (isHighPriority e = true →
      (evaluate ai e now st).1 =
        ⟨e.id, e.user_id, "NOW", 0.9,
         "[SAFETY NET] High-priority event cannot be suppressed. Original: Event expired before processing",
         none, false, false⟩) := by
  constructor <;> intro h <;> simp [evaluate, hx, decideStep, h]

def c2LowEvent : NotificationEvent :=
  { user_id := "u", event_type := "update", channel := "email",
    priority_hint := some "low", expires_at := .timeAt 0, title := some "t" }

/-- Witness for C2's amended theorem: a concrete expired low-priority event
yields the plain expiry NEVER decision. -/
theorem C2_expired_amended_witness :
    (evaluate true c2LowEvent 1 {}).1 =
      ⟨c2LowEvent.id, c2LowEvent.user_id, "NEVER", 0,
       "Event expired before processing", none, false, false⟩ :=
  (C2_expired_amended true c2LowEvent 1 {}
    (of_decide_eq_true (by with_unfolding_all rfl))).1 rfl

/-! ## C5 — fallback decisions when the AI is unavailable -/

theorem incr_lookup_self (s : InMemoryStore) (key : String) (ttl now : ℚ)
    (httl : 0 ≤ ttl) :
    ∃ c E, alookup (s.incr key ttl now).2.counters key = some (c, E) ∧
      1 ≤ c ∧ entryExpired E now = false := by
  unfold InMemoryStore.incr
  cases hl : alookup s.counters key with
  | none =>
      refine ⟨1, now + ttl, by simp [alookup], le_refl 1, ?_⟩
      simp only [entryExpired, decide_eq_false_iff_not, not_lt]
      linarith
  | some p =>
      obtain ⟨c, E⟩ := p
      dsimp only
      by_cases hexp : entryExpired E now = true
      · rw [if_pos hexp]
        refine ⟨1, now + ttl, by simp [alookup], le_refl 1, ?_⟩
        simp only [entryExpired, decide_eq_false_iff_not, not_lt]
        linarith
      · rw [if_neg hexp]
        rw [Bool.not_eq_true] at hexp
        exact ⟨c + 1, E, by simp [alookup], by omega, hexp⟩

theorem checkFrequency_counter (e : NotificationEvent) (now : ℚ) (s : InMemoryStore) :
    ∃ c E, alookup (checkFrequency e now s).2.counters
        (freqKeyOf e.user_id e.event_type) = some (c, E) ∧
      1 ≤ c ∧ entryExpired E now = false := by
  obtain ⟨c, E, h1, h2, h3⟩ :=
    incr_lookup_self s (freqKeyOf e.user_id e.event_type) (capWindow e.event_type) now
      (by unfold capWindow; norm_num)
  refine ⟨c, E, ?_, h2, h3⟩
  unfold checkFrequency
  dsimp only
  split <;> exact h1

theorem checkDailyCap_counters_other (e : NotificationEvent) (now : ℚ)
    (s : InMemoryStore) (k : String) (hk : k ≠ dailyKeyOf e.user_id e.channel now) :
    alookup (checkDailyCap e now s).2.counters k = alookup s.counters k := by
  unfold checkDailyCap InMemoryStore.incr
  dsimp only
  cases hl : alookup s.counters (dailyKeyOf e.user_id e.channel now) with
  | none => split <;> simp [alookup, hk]
  | some p =>
      obtain ⟨c, E⟩ := p
      by_cases hexp : entryExpired E now = true <;>
        simp [hexp, alookup, hk] <;> split <;> simp [alookup, hk]

theorem clamp01_le {x b : ℚ} (hb : 0 ≤ b) (h : x ≤ b) : clamp01 x ≤ b :=
  max_le hb (le_trans (min_le_right 1 x) h)

theorem round3_mono {x y : ℚ} (h : x ≤ y) : round3 x ≤ round3 y := by
  unfold round3
  have hfl : (⌊x * 1000 + 1/2⌋ : ℤ) ≤ ⌊y * 1000 + 1/2⌋ :=
    Int.floor_le_floor (by linarith)
  have : ((⌊x * 1000 + 1/2⌋ : ℤ) : ℚ) ≤ ((⌊y * 1000 + 1/2⌋ : ℤ) : ℚ) :=
    Int.cast_le.mpr hfl
  linarith

theorem round3_074 : round3 (74/100) = 74/100 := by
  unfold round3
  have h740 : ⌊(74 : ℚ)/100 * 1000 + 1/2⌋ = (740 : ℤ) := by
    rw [Int.floor_eq_iff]
    norm_num
  rw [h740]
  norm_num

/-- The deterministic fallback can never say NOW for a non-urgent event once
at least one recent event is on the counter: the base is at most 0.52, the
recency penalty at least 0.08, the expiry bonus at most 0.30 and the channel
weight at most 1, so the score is at most 0.74 < 0.75. -/
theorem deterministicScore_action_not_now (e : NotificationEvent) (rc : ℕ)
    (q : Bool) (now : ℚ) (hp : isHighPriority e = false) (hrc : 1 ≤ rc) :
    (deterministicScore e rc q now).action ≠ "NOW" := by
  simp only [isHighPriority, Bool.or_eq_false_iff, beq_eq_false_iff_ne, ne_eq] at hp
  have h1 : priorityScore e.priority_hint ≤ 52/100 := by
    unfold priorityScore
    rw [if_neg hp.1, if_neg hp.2]
    split_ifs <;> norm_num
  have h2 : (8 : ℚ)/100 ≤ min ((rc : ℚ) * 0.08) 0.25 := by
    apply le_min ?_ (by norm_num)
    have : (1 : ℚ) ≤ (rc : ℚ) := by exact_mod_cast hrc
    nlinarith
  have h3 : expiryBonus e now ≤ 30/100 := by
    unfold expiryBonus
    split <;> first
      | (dsimp only; split_ifs <;> norm_num)
      | norm_num
  have h4 : 0 < channelWeight e.channel ∧ channelWeight e.channel ≤ 1 := by
    unfold channelWeight
    split_ifs <;> norm_num
  unfold deterministicScore
  dsimp only
  set b1 := priorityScore e.priority_hint - min ((rc : ℚ) * 0.08) 0.25 +
    expiryBonus e now with hb1
  set b2 := if q = true then b1 - 0.20 else b1 with hb2
  set sc := round3 (clamp01 (b2 * channelWeight e.channel)) with hscdef
  have hA : b1 ≤ 74/100 := by rw [hb1]; linarith
  have hB : b2 ≤ 74/100 := by
    rw [hb2]; split_ifs <;> linarith
  have hx : b2 * channelWeight e.channel ≤ 74/100 := by
    rcases le_or_lt b2 0 with hb | hb
    · nlinarith [h4.1]
    · have := mul_le_of_le_one_right (le_of_lt hb) h4.2
      linarith
  have hlt : sc < 0.75 := by
    rw [hscdef]
    have := le_trans (round3_mono (clamp01_le (by norm_num) hx)) (le_of_eq round3_074)
    calc round3 (clamp01 (b2 * channelWeight e.channel)) ≤ 74/100 := this
      _ < 0.75 := by norm_num
  rw [if_neg (not_le.mpr hlt)]
  split <;> simp

theorem deterministicScore_ai_used (e : NotificationEvent) (rc : ℕ) (q : Bool)
    (now : ℚ) : (deterministicScore e rc q now).ai_used = false := by
  unfold deterministicScore
  dsimp only
  split_ifs <;> rfl

theorem deterministicScore_fallback_mode (e : NotificationEvent) (rc : ℕ) (q : Bool)
    (now : ℚ) : (deterministicScore e rc q now).fallback_mode = true := by
  unfold deterministicScore
  dsimp only
  split_ifs <;> rfl

theorem decideStep_fields (e : NotificationEvent) (a : String) (sc : ℚ) (r : String)
    (rm : Option String) (au fb : Bool) (st : EngineState) :
    (decideStep e a sc r rm au fb st).1.ai_used = au ∧
    (decideStep e a sc r rm au fb st).1.fallback_mode = fb ∧
    ((decideStep e a sc r rm au fb st).1.reason = r ∨
     (decideStep e a sc r rm au fb st).1.reason =
       "[SAFETY NET] High-priority event cannot be suppressed. Original: " ++ r) := by
  unfold decideStep
  dsimp only
  split <;> simp

theorem aiFallback_reason (e : NotificationEvent) (rc : ℕ) (q : Bool) (now : ℚ)
    (cause : String) :
    (aiFallback e rc q now cause).reason =
      "[FALLBACK] " ++ (cause ++ (" — " ++ (deterministicScore e rc q now).reason)) := by
  simp [aiFallback, String.append_assoc]


theorem aiFallback_flags (e : NotificationEvent) (rc : ℕ) (q : Bool) (now : ℚ)
    (cause : String) :
    (aiFallback e rc q now cause).ai_used = false ∧
    (aiFallback e rc q now cause).fallback_mode = true := by
  unfold aiFallback
  dsimp only
  exact ⟨deterministicScore_ai_used e rc q now,
    deterministicScore_fallback_mode e rc q now⟩

theorem aiScore_unavailable (bk : CircuitBreaker) (e : NotificationEvent) (rc : ℕ)
    (q : Bool) (now : ℚ) :
    aiScore false bk e rc q now =
      (aiFallback e rc q now "AI circuit breaker OPEN", (bk.can_attempt now).2) := by
  simp [aiScore]

/-- Running `_decide` on the fallback scorer's result (whatever action it
carries) yields a decision with the fallback flags and a `[FALLBACK]` reason,
possibly behind the safety-net prefix. -/
theorem fallback_decide (e : NotificationEvent) (now : ℚ) (rc : ℕ) (q : Bool)
    (a : String) (rm : Option String) (st2 : EngineState) :
    (decideStep e a (aiFallback e rc q now "AI circuit breaker OPEN").score
      (aiFallback e rc q now "AI circuit breaker OPEN").reason rm
      (aiFallback e rc q now "AI circuit breaker OPEN").ai_used
      (aiFallback e rc q now "AI circuit breaker OPEN").fallback_mode st2).1.ai_used =
        false ∧
    (decideStep e a (aiFallback e rc q now "AI circuit breaker OPEN").score
      (aiFallback e rc q now "AI circuit breaker OPEN").reason rm
      (aiFallback e rc q now "AI circuit breaker OPEN").ai_used
      (aiFallback e rc q now "AI circuit breaker OPEN").fallback_mode st2).1.fallback_mode =
        true ∧
    ∃ rest : String,
      ((decideStep e a (aiFallback e rc q now "AI circuit breaker OPEN").score
          (aiFallback e rc q now "AI circuit breaker OPEN").reason rm
          (aiFallback e rc q now "AI circuit breaker OPEN").ai_used
          (aiFallback e rc q now "AI circuit breaker OPEN").fallback_mode st2).1.reason =
        "[FALLBACK] " ++ rest ∨
       (decideStep e a (aiFallback e rc q now "AI circuit breaker OPEN").score
          (aiFallback e rc q now "AI circuit breaker OPEN").reason rm
          (aiFallback e rc q now "AI circuit breaker OPEN").ai_used
          (aiFallback e rc q now "AI circuit breaker OPEN").fallback_mode st2).1.reason =
        "[SAFETY NET] High-priority event cannot be suppressed. Original: " ++
          ("[FALLBACK] " ++ rest)) := by
  obtain ⟨g1, g2, g3⟩ := decideStep_fields e a
    (aiFallback e rc q now "AI circuit breaker OPEN").score
    (aiFallback e rc q now "AI circuit breaker OPEN").reason rm
    (aiFallback e rc q now "AI circuit breaker OPEN").ai_used
    (aiFallback e rc q now "AI circuit breaker OPEN").fallback_mode st2
  obtain ⟨f1, f2⟩ := aiFallback_flags e rc q now "AI circuit breaker OPEN"
  refine ⟨by rw [g1, f1], by rw [g2, f2], ?_⟩
  refine ⟨"AI circuit breaker OPEN" ++
    (" — " ++ (deterministicScore e rc q now).reason), ?_⟩
  rw [aiFallback_reason] at g3
  exact g3


/-- The step-6 merge is the identity whenever the event is urgent or the
scorer did not say NOW. -/
theorem mergeRule_id (rr : Option (String × String × String)) (sact srsn : String)
    (hi : Bool) (h : hi = true ∨ sact ≠ "NOW") :
    mergeRule rr sact srsn hi = (sact, srsn) := by
  unfold mergeRule
  cases rr with
  | none => rfl
  | some t =>
      obtain ⟨ract, rreason, n⟩ := t
      dsimp only
      rcases h with h | h
      · rw [if_neg (by simp [h])]
      · rw [if_neg (by simp [beq_eq_false_iff_ne.mpr h])]

/-- Steps 4–7 with `AI_AVAILABLE = false`: once the fatigue gates do not
terminate, the decision carries the deterministic fallback's flags, and its
reason is the `[FALLBACK]`-annotated one, possibly behind the safety net's
prefix (the rule/score merge cannot fire, because the fallback never scores a
non-urgent event NOW once its frequency counter is positive). -/
theorem evaluateFrom_fallback (e : NotificationEvent) (now : ℚ) (st : EngineState)
    (rr : Option (String × String × String))
    (hrr : ∀ a r n, rr = some (a, r, n) → a = "LATER")
    (hfreq : (checkFrequency e now st.store).1 = none ∨ isHighPriority e = true)
    (hdaily : (checkDailyCap e now (checkFrequency e now st.store).2).1 = none ∨
      isHighPriority e = true) :
    (evaluateFrom false e now rr st).1.ai_used = false ∧
    (evaluateFrom false e now rr st).1.fallback_mode = true ∧
    ∃ rest : String,
      ((evaluateFrom false e now rr st).1.reason = "[FALLBACK] " ++ rest ∨
       (evaluateFrom false e now rr st).1.reason =
         "[SAFETY NET] High-priority event cannot be suppressed. Original: " ++
           ("[FALLBACK] " ++ rest)) := by
  have hrc : 1 ≤ (checkDailyCap e now (checkFrequency e now st.store).2).2.get_count
      (freqKeyOf e.user_id e.event_type) now := by
    obtain ⟨c, E, hlk, hc, hlive⟩ := checkFrequency_counter e now st.store
    have hpres := checkDailyCap_counters_other e now (checkFrequency e now st.store).2
      (freqKeyOf e.user_id e.event_type)
      (freqKey_ne_dailyKey e.user_id e.event_type e.user_id e.channel now)
    unfold InMemoryStore.get_count
    rw [hpres, hlk]
    dsimp only
    rw [if_neg (by rw [hlive]; exact Bool.false_ne_true)]
    exact hc
  have hmerge : ∀ hi : Bool, isHighPriority e = hi →
      mergeRule rr
        (aiScore false st.breaker e
          ((checkDailyCap e now (checkFrequency e now st.store).2).2.get_count
            (freqKeyOf e.user_id e.event_type) now) e.quiet_hours now).1.action
        (aiScore false st.breaker e
          ((checkDailyCap e now (checkFrequency e now st.store).2).2.get_count
            (freqKeyOf e.user_id e.event_type) now) e.quiet_hours now).1.reason hi =
      ((aiScore false st.breaker e
          ((checkDailyCap e now (checkFrequency e now st.store).2).2.get_count
            (freqKeyOf e.user_id e.event_type) now) e.quiet_hours now).1.action,
       (aiScore false st.breaker e
          ((checkDailyCap e now (checkFrequency e now st.store).2).2.get_count
            (freqKeyOf e.user_id e.event_type) now) e.quiet_hours now).1.reason) := by
    intro hi hhi
    apply mergeRule_id
    cases hi with
    | true => exact Or.inl rfl
    | false =>
        refine Or.inr ?_
        rw [aiScore_unavailable]
        dsimp only
        unfold aiFallback
        dsimp only
        exact deterministicScore_action_not_now e _ e.quiet_hours now hhi hrc
  unfold evaluateFrom
  dsimp only
  cases hfr : (checkFrequency e now st.store).1 with
  | some fr' =>
      have hhi : isHighPriority e = true := by
        rcases hfreq with hf | hf
        · rw [hf] at hfr; cases hfr
        · exact hf
      rw [hhi]
      dsimp only
      cases hdr : (checkDailyCap e now (checkFrequency e now st.store).2).1 with
      | some dr' =>
          dsimp only
          rw [hmerge true hhi, aiScore_unavailable]
          dsimp only
          exact fallback_decide e now _ e.quiet_hours _ _ _
      | none =>
          dsimp only
          rw [hmerge true hhi, aiScore_unavailable]
          dsimp only
          exact fallback_decide e now _ e.quiet_hours _ _ _
  | none =>
      cases hhi2 : isHighPriority e with
      | true =>
          dsimp only
          cases hdr : (checkDailyCap e now (checkFrequency e now st.store).2).1 with
          | some dr' =>
              dsimp only
              rw [hmerge true hhi2, aiScore_unavailable]
              dsimp only
              exact fallback_decide e now _ e.quiet_hours _ _ _
          | none =>
              dsimp only
              rw [hmerge true hhi2, aiScore_unavailable]
              dsimp only
              exact fallback_decide e now _ e.quiet_hours _ _ _
      | false =>
          dsimp only
          have hd : (checkDailyCap e now (checkFrequency e now st.store).2).1 = none := by
            rcases hdaily with hd | hd
            · exact hd
            · rw [hd] at hhi2; cases hhi2
          rw [hd]
          dsimp only
          rw [hmerge false hhi2, aiScore_unavailable]
          dsimp only
          exact fallback_decide e now _ e.quiet_hours _ _ _

def c5Event : NotificationEvent :=
  { user_id := "u", event_type := "message", channel := "push",
    expires_at := .timeAt 0, title := some "x" }

/-- Counterexample to C5 as stated: with `AI_AVAILABLE = false` an *expired*
event still gets the expiry decision, which has `fallback_mode = false` and a
reason that does not start with `[FALLBACK]` — the early gates never consult
the scorer. -/
theorem C5_counterexample :
    (evaluate false c5Event 1 {}).1.fallback_mode = false ∧
    (evaluate false c5Event 1 {}).1.reason = "Event expired before processing" ∧
    ∀ rest : String, (evaluate false c5Event 1 {}).1.reason ≠ "[FALLBACK] " ++ rest := by
  refine ⟨of_decide_eq_true (by with_unfolding_all rfl),
    of_decide_eq_true (by with_unfolding_all rfl), ?_⟩
  intro rest h
  have h1 : (evaluate false c5Event 1 {}).1.reason.data.head? = some 'E' := by
    with_unfolding_all rfl
  rw [h] at h1
  have h2 : ("[FALLBACK] " ++ rest).data.head? = some '[' := rfl
  rw [h2] at h1
  exact absurd h1 (by decide)

/-- C5 amended: with `AI_AVAILABLE = false`, every evaluation that reaches
the scoring step (not expired, no dedup hit, no NOW/NEVER rule, no
fatigue-gate termination) produces a Decision with `ai_used = false`,
`fallback_mode = true`, and a reason starting with `[FALLBACK]` — except that
when the safety net rewrites a fallback NEVER for a high-priority event, the
`[FALLBACK]` reason sits behind the `[SAFETY NET]` prefix.  Decisions made by
the earlier gates are independent of `AI_AVAILABLE` and keep
`fallback_mode = false`. -/
theorem C5_fallback_amended (e : NotificationEvent) (now : ℚ) (st : EngineState)
    (hx : e.is_expired now = false)
    (hded : (dedupCheck e now st.store).1 = none)
    (hrule : ∀ a r n, rulesEval e = some (a, r, n) → a = "LATER")
    (hfreq : (checkFrequency e now (dedupCheck e now st.store).2).1 = none ∨
      isHighPriority e = true)
    (hdaily : (checkDailyCap e now
        (checkFrequency e now (dedupCheck e now st.store).2).2).1 = none ∨
      isHighPriority e = true) :
    (evaluate false e now st).1.ai_used = false ∧
    (evaluate false e now st).1.fallback_mode = true ∧
    ∃ rest : String,
      ((evaluate false e now st).1.reason = "[FALLBACK] " ++ rest ∨
       (evaluate false e now st).1.reason =
         "[SAFETY NET] High-priority event cannot be suppressed. Original: " ++
           ("[FALLBACK] " ++ rest)) := by
  unfold evaluate
  rw [hx]
  rw [if_neg Bool.false_ne_true]
  dsimp only
  rw [hded]
  dsimp only
  cases hr : rulesEval e with
  | none =>
      dsimp only
      exact evaluateFrom_fallback e now _ none (by intro a r n h; cases h) hfreq hdaily
  | some t =>
      obtain ⟨a, r, n⟩ := t
      have ha : a = "LATER" := hrule a r n hr
      subst ha
      dsimp only
      rw [if_neg (by decide), if_neg (by decide)]
      refine evaluateFrom_fallback e now _ (some ("LATER", r, n)) ?_ hfreq hdaily
      intro a' r' n' h
      injection h with h2
      simp at h2
      exact h2.1.symm

def c5WEvent : NotificationEvent :=
  { user_id := "u5", event_type := "message", channel := "push", title := some "hello" }

set_option maxRecDepth 100000 in
/-- Witness for C5's amended theorem: a fresh plain message with the AI off
reaches the scorer and comes back in fallback mode. -/
theorem C5_fallback_amended_witness :
    (evaluate false c5WEvent 0 {}).1.ai_used = false ∧
    (evaluate false c5WEvent 0 {}).1.fallback_mode = true ∧
    ∃ rest : String,
      ((evaluate false c5WEvent 0 {}).1.reason = "[FALLBACK] " ++ rest ∨
       (evaluate false c5WEvent 0 {}).1.reason =
         "[SAFETY NET] High-priority event cannot be suppressed. Original: " ++
           ("[FALLBACK] " ++ rest)) :=
  C5_fallback_amended c5WEvent 0 {} rfl
    (of_decide_eq_true (by with_unfolding_all rfl))
    (by intro a r n h; rw [show rulesEval c5WEvent = none from by decide] at h; cases h)
    (Or.inl (of_decide_eq_true (by with_unfolding_all rfl)))
    (Or.inl (of_decide_eq_true (by with_unfolding_all rfl)))

/-! ## C3 — duplicate `dedupe_key` within 24 h -/

theorem set_nx_fresh (s : InMemoryStore) (key v : String) (ttl now : ℚ)
    (h : s.get key now = none) :
    s.set_nx key v ttl now = (true, { s with kv := (key, (v, now + ttl)) :: s.kv }) := by
  unfold InMemoryStore.get at h
  unfold InMemoryStore.set_nx
  cases hl : alookup s.kv key with
  | none => rfl
  | some p =>
      obtain ⟨w, E⟩ := p
      rw [hl] at h
      dsimp only at h ⊢
      by_cases hexp : entryExpired E now = true
      · rw [if_pos hexp]
      · rw [if_neg hexp] at h
        simp at h

theorem set_nx_live (s : InMemoryStore) (key v : String) (ttl now : ℚ) (w : String)
    (E : ℚ) (hlk : alookup s.kv key = some (w, E))
    (hlive : entryExpired E now = false) :
    s.set_nx key v ttl now = (false, s) := by
  unfold InMemoryStore.set_nx
  rw [hlk]
  dsimp only
  rw [if_neg (by rw [hlive]; exact Bool.false_ne_true)]

theorem set_nx_kv_other (s : InMemoryStore) (key v : String) (ttl now : ℚ)
    (k : String) (hk : k ≠ key) :
    alookup (s.set_nx key v ttl now).2.kv k = alookup s.kv k := by
  unfold InMemoryStore.set_nx
  cases hl : alookup s.kv key with
  | none => simp [alookup, hk]
  | some p =>
      obtain ⟨w, E⟩ := p
      dsimp only
      split <;> simp [alookup, hk]

theorem dedupCheck_writes_key (e : NotificationEvent) (now : ℚ) (s : InMemoryStore)
    (k : String) (hk : e.dedupe_key = some k) (hk0 : k ≠ "")
    (hfresh : s.get (dedupKeyOf e.user_id k) now = none) :
    alookup (dedupCheck e now s).2.kv (dedupKeyOf e.user_id k) =
      some (e.id, now + 86400) := by
  unfold dedupCheck
  rw [hk]
  dsimp only
  rw [if_neg hk0]
  rw [set_nx_fresh s _ e.id 86400 now hfresh]
  dsimp only
  rw [if_pos rfl]
  unfold dedupCheckLayer2
  dsimp only
  have hne : dedupKeyOf e.user_id k ≠ fpKey e := by
    unfold fpKey
    exact fun h => (fingerprintKey_ne_dedupKey e.user_id (fingerprint e) e.user_id k) h.symm
  have hother := set_nx_kv_other
    ({ s with kv := (dedupKeyOf e.user_id k, (e.id, now + 86400)) :: s.kv })
    (fpKey e) e.id 3600 now (dedupKeyOf e.user_id k) hne
  split <;> (dsimp only; rw [hother]; simp [alookup])

theorem incr_kv (s : InMemoryStore) (k : String) (ttl now : ℚ) :
    (s.incr k ttl now).2.kv = s.kv := by
  unfold InMemoryStore.incr
  cases h : alookup s.counters k with
  | none => rfl
  | some p =>
      obtain ⟨c, E⟩ := p
      dsimp only
      split <;> rfl

theorem checkFrequency_kv (e : NotificationEvent) (now : ℚ) (s : InMemoryStore) :
    (checkFrequency e now s).2.kv = s.kv := by
  unfold checkFrequency
  dsimp only
  split <;> exact incr_kv _ _ _ _

theorem checkDailyCap_kv (e : NotificationEvent) (now : ℚ) (s : InMemoryStore) :
    (checkDailyCap e now s).2.kv = s.kv := by
  unfold checkDailyCap
  dsimp only
  split <;> exact incr_kv _ _ _ _

theorem decideStep_state_store (e : NotificationEvent) (a : String) (sc : ℚ)
    (r : String) (rm : Option String) (au fb : Bool) (st : EngineState) :
    (decideStep e a sc r rm au fb st).2.store = st.store := rfl

theorem evaluateFrom_kv (ai : Bool) (e : NotificationEvent) (now : ℚ)
    (rr : Option (String × String × String)) (st : EngineState) :
    (evaluateFrom ai e now rr st).2.store.kv = st.store.kv := by
  unfold evaluateFrom
  dsimp only
  repeat
    first
      | (rw [decideStep_state_store]; dsimp only;
         rw [checkDailyCap_kv, checkFrequency_kv])
      | split
      | dsimp only

theorem evaluate_writes_dedup_key (ai : Bool) (e : NotificationEvent) (now : ℚ)
    (st : EngineState) (k : String)
    (hk : e.dedupe_key = some k) (hk0 : k ≠ "") (hx : e.is_expired now = false)
    (hfresh : st.store.get (dedupKeyOf e.user_id k) now = none) :
    alookup (evaluate ai e now st).2.store.kv (dedupKeyOf e.user_id k) =
      some (e.id, now + 86400) := by
  have hw := dedupCheck_writes_key e now st.store k hk hk0 hfresh
  unfold evaluate
  rw [hx, if_neg Bool.false_ne_true]
  dsimp only
  repeat
    first
      | (rw [decideStep_state_store]; exact hw)
      | (rw [evaluateFrom_kv]; exact hw)
      | split
      | dsimp only

theorem dedupCheck_dup (e : NotificationEvent) (now : ℚ) (s : InMemoryStore)
    (k : String) (hk : e.dedupe_key = some k) (hk0 : k ≠ "") (w : String) (E : ℚ)
    (hlk : alookup s.kv (dedupKeyOf e.user_id k) = some (w, E))
    (hlive : entryExpired E now = false) :
    dedupCheck e now s =
      (some ("Exact duplicate — dedupe_key '" ++ k ++ "' already seen in last 24h"),
       s) := by
  unfold dedupCheck
  rw [hk]
  dsimp only
  rw [if_neg hk0]
  rw [set_nx_live s _ e.id 86400 now w E hlk hlive]
  dsimp only
  rw [if_neg Bool.false_ne_true]

theorem decideStep_decision (e : NotificationEvent) (a : String) (sc : ℚ) (r : String)
    (rm : Option String) (au fb : Bool) (st : EngineState) :
    (decideStep e a sc r rm au fb st).1 =
      (if a == "NEVER" && isHighPriority e then
        ⟨e.id, e.user_id, "NOW", 0.9,
         "[SAFETY NET] High-priority event cannot be suppressed. Original: " ++ r,
         rm, au, fb⟩
      else ⟨e.id, e.user_id, a, sc, r, rm, au, fb⟩) := by
  unfold decideStep
  dsimp only
  split <;> simp_all

/-- C3 amended: two `evaluate` calls with the same non-empty `dedupe_key` and
user within 24 h (neither event expired, key fresh before the first call)
make the second return `rule_matched = "dedup_check"` with a reason naming
the key — with action NEVER and score 0 when the second event's
`priority_hint` is outside {critical, high}, but action NOW at score 0.9
behind the `[SAFETY NET]` prefix when it is critical or high. -/
theorem C3_dedup_amended (ai1 ai2 : Bool) (e1 e2 : NotificationEvent) (t1 t2 : ℚ)
    (st : EngineState) (k : String)
    (hk1 : e1.dedupe_key = some k) (hk2 : e2.dedupe_key = some k) (hk0 : k ≠ "")
    (hu : e2.user_id = e1.user_id)
    (hx1 : e1.is_expired t1 = false) (hx2 : e2.is_expired t2 = false)
    (hfresh : st.store.get (dedupKeyOf e1.user_id k) t1 = none)
    (hwin : t2 ≤ t1 + 86400) :
    ((evaluate ai2 e2 t2 (evaluate ai1 e1 t1 st).2).1.rule_matched =
      some "dedup_check") ∧
    (isHighPriority e2 = false →
      (evaluate ai2 e2 t2 (evaluate ai1 e1 t1 st).2).1.action = "NEVER" ∧
      (evaluate ai2 e2 t2 (evaluate ai1 e1 t1 st).2).1.score = 0 ∧
      (evaluate ai2 e2 t2 (evaluate ai1 e1 t1 st).2).1.reason =
        "Exact duplicate — dedupe_key '" ++ k ++ "' already seen in last 24h") ∧
    (isHighPriority e2 = true →
      (evaluate ai2 e2 t2 (evaluate ai1 e1 t1 st).2).1.action = "NOW" ∧
      (evaluate ai2 e2 t2 (evaluate ai1 e1 t1 st).2).1.score = 0.9 ∧
      (evaluate ai2 e2 t2 (evaluate ai1 e1 t1 st).2).1.reason =
        "[SAFETY NET] High-priority event cannot be suppressed. Original: " ++
          ("Exact duplicate — dedupe_key '" ++ k ++ "' already seen in last 24h")) := by
  set st1 := (evaluate ai1 e1 t1 st).2 with hst1
  have hlk : alookup st1.store.kv (dedupKeyOf e2.user_id k) =
      some (e1.id, t1 + 86400) := by
    rw [hu, hst1]
    exact evaluate_writes_dedup_key ai1 e1 t1 st k hk1 hk0 hx1 hfresh
  have hlive : entryExpired (t1 + 86400) t2 = false := by
    simp only [entryExpired, decide_eq_false_iff_not, not_lt]
    linarith
  have hdup := dedupCheck_dup e2 t2 st1.store k hk2 hk0
    e1.id (t1 + 86400) hlk hlive
  have heval : evaluate ai2 e2 t2 st1 =
      decideStep e2 "NEVER" 0
        ("Exact duplicate — dedupe_key '" ++ k ++ "' already seen in last 24h")
        (some "dedup_check") false false st1 := by
    unfold evaluate
    rw [hx2, if_neg Bool.false_ne_true]
    dsimp only
    rw [hdup]
  rw [heval, decideStep_decision]
  cases hhi : isHighPriority e2 with
  | false =>
      rw [if_neg (by simp)]
      exact ⟨rfl, fun _ => ⟨rfl, rfl, rfl⟩, fun h => absurd h (by decide)⟩
  | true =>
      rw [if_pos (by simp)]
      exact ⟨rfl, fun h => absurd h (by decide), fun _ => ⟨rfl, rfl, rfl⟩⟩

def c3Event : NotificationEvent :=
  { user_id := "u2", event_type := "payment", channel := "push",
    priority_hint := some "critical", title := some "hi", dedupe_key := some "k1" }

set_option maxRecDepth 100000 in
/-- Counterexample to C3 as stated: for a *critical* event the second
evaluation with the same `dedupe_key` does not return NEVER — the dedup hit
runs through `_decide`, whose safety net rewrites it to NOW at 0.9 (the
rule_matched and key-referencing reason survive). -/
theorem C3_counterexample :
    (evaluate true c3Event 5 (evaluate true c3Event 0 {}).2).1.action = "NOW" ∧
    (evaluate true c3Event 5 (evaluate true c3Event 0 {}).2).1.action ≠ "NEVER" ∧
    (evaluate true c3Event 5 (evaluate true c3Event 0 {}).2).1.score = 0.9 ∧
    (evaluate true c3Event 5 (evaluate true c3Event 0 {}).2).1.rule_matched =
      some "dedup_check" ∧
    (evaluate true c3Event 5 (evaluate true c3Event 0 {}).2).1.reason =
      "[SAFETY NET] High-priority event cannot be suppressed. Original: Exact duplicate — dedupe_key 'k1' already seen in last 24h" :=
  of_decide_eq_true (by with_unfolding_all rfl)

def c3LowEvent : NotificationEvent :=
  { user_id := "u2", event_type := "payment", channel := "push",
    priority_hint := some "low", title := some "hi", dedupe_key := some "k1" }

set_option maxRecDepth 100000 in
/-- Witness for C3's amended theorem at a concrete low-priority event
evaluated twice, 5 seconds apart. -/
theorem C3_dedup_amended_witness :
    (evaluate true c3LowEvent 5 (evaluate true c3LowEvent 0 {}).2).1.rule_matched =
      some "dedup_check" ∧
    (evaluate true c3LowEvent 5 (evaluate true c3LowEvent 0 {}).2).1.action = "NEVER" ∧
    (evaluate true c3LowEvent 5 (evaluate true c3LowEvent 0 {}).2).1.score = 0 ∧
    (evaluate true c3LowEvent 5 (evaluate true c3LowEvent 0 {}).2).1.reason =
      "Exact duplicate — dedupe_key '" ++ "k1" ++ "' already seen in last 24h" := by
  have h := C3_dedup_amended true true c3LowEvent c3LowEvent 0 5 {} "k1"
    rfl rfl (by decide) rfl rfl rfl rfl (by norm_num)
  obtain ⟨h1, h2, _⟩ := h
  obtain ⟨h3, h4, h5⟩ := h2 rfl
  exact ⟨h1, h3, h4, h5⟩

/-! ## C4 — hourly frequency caps -/

theorem incr_live (s : InMemoryStore) (k : String) (ttl now : ℚ) (c : ℕ) (E : ℚ)
    (hc : alookup s.counters k = some (c, E)) (hl : entryExpired E now = false) :
    s.incr k ttl now = (c + 1, { s with counters := (k, (c + 1, E)) :: s.counters }) := by
  unfold InMemoryStore.incr
  rw [hc]
  dsimp only
  rw [if_neg (by rw [hl]; exact Bool.false_ne_true)]

theorem incr_fresh (s : InMemoryStore) (k : String) (ttl now : ℚ)
    (hc : alookup s.counters k = none) :
    s.incr k ttl now = (1, { s with counters := (k, (1, now + ttl)) :: s.counters }) := by
  unfold InMemoryStore.incr
  rw [hc]

theorem isHighPriority_low (e : NotificationEvent) (h : e.priority_hint = some "low") :
    isHighPriority e = false := by
  simp [isHighPriority, h]

theorem dedupCheck_fresh_nokey (e : NotificationEvent) (now : ℚ) (s : InMemoryStore)
    (hdk : e.dedupe_key = none) (hfp : alookup s.kv (fpKey e) = none) :
    dedupCheck e now s =
      (none, { s with kv := (fpKey e, (e.id, now + 3600)) :: s.kv }) := by
  unfold dedupCheck
  rw [hdk]
  unfold dedupCheckLayer2
  rw [set_nx_fresh s (fpKey e) e.id 3600 now
    (by unfold InMemoryStore.get; rw [hfp])]
  dsimp only
  rw [if_pos rfl]

/-- First-match evaluation of the default rules for a low-priority event whose
type is neither `security_alert` nor `promotion`: only the LATER update rule
can fire. -/
theorem rulesEval_low (e : NotificationEvent) (hlow : e.priority_hint = some "low")
    (h1 : e.event_type ≠ "security_alert") (h2 : e.event_type ≠ "promotion") :
    rulesEval e = (if e.event_type = "update" then
      some ("LATER", "Updates batched into daily digest", "defer_updates_to_digest")
      else none) := by
  unfold rulesEval rulesFirstMatch defaultRules
  have m1 : ruleMatches e
      { name := "always_send_security_alerts", priority := 100,
        conditions := [⟨"event_type", "eq", .scalar (some "security_alert")⟩],
        action := "NOW", reason := "Security alerts always sent immediately" } = false := by
    simp [ruleMatches, condHolds, getFieldVal, h1]
  have m2 : ruleMatches e
      { name := "always_send_critical", priority := 99,
        conditions := [⟨"priority_hint", "eq", .scalar (some "critical")⟩],
        action := "NOW", reason := "Critical priority always sent immediately" } = false := by
    simp [ruleMatches, condHolds, getFieldVal, hlow]
  have m3 : ruleMatches e
      { name := "suppress_promos_low_priority", priority := 50,
        conditions := [⟨"event_type", "eq", .scalar (some "promotion")⟩,
                       ⟨"priority_hint", "in", .list [some "low", none]⟩],
        action := "NEVER",
        reason := "Low-priority promotions suppressed to reduce noise" } = false := by
    simp [ruleMatches, condHolds, getFieldVal, h2]
  have m4 : ruleMatches e
      { name := "defer_updates_to_digest", priority := 40,
        conditions := [⟨"event_type", "eq", .scalar (some "update")⟩],
        action := "LATER", reason := "Updates batched into daily digest" } =
      (e.event_type == "update") := by
    simp [ruleMatches, condHolds, getFieldVal]
  rw [List.find?]
  rw [m1]
  rw [List.find?]
  rw [m2]
  rw [List.find?]
  rw [m3]
  rw [List.find?]
  rw [m4]
  by_cases hu : e.event_type = "update"
  · rw [if_pos hu]
    rw [show (e.event_type == "update") = true from by simp [hu]]
  · rw [if_neg hu]
    rw [show (e.event_type == "update") = false from by simp [hu]]
    rfl

theorem checkFrequency_counters_live (e : NotificationEvent) (now : ℚ)
    (s : InMemoryStore) (c : ℕ) (E : ℚ)
    (hc : alookup s.counters (freqKeyOf e.user_id e.event_type) = some (c, E))
    (hl : entryExpired E now = false) :
    alookup (checkFrequency e now s).2.counters (freqKeyOf e.user_id e.event_type) =
      some (c + 1, E) := by
  unfold checkFrequency
  rw [incr_live s _ _ now c E hc hl]
  dsimp only
  split <;> simp [alookup]

theorem checkFrequency_counters_fresh (e : NotificationEvent) (now : ℚ)
    (s : InMemoryStore)
    (hc : alookup s.counters (freqKeyOf e.user_id e.event_type) = none) :
    alookup (checkFrequency e now s).2.counters (freqKeyOf e.user_id e.event_type) =
      some (1, now + capWindow e.event_type) := by
  unfold checkFrequency
  rw [incr_fresh s _ _ now hc]
  dsimp only
  split <;> simp [alookup]

theorem evaluateFrom_counters (ai : Bool) (e : NotificationEvent) (now : ℚ)
    (rr : Option (String × String × String)) (st : EngineState) (n : ℕ) (E : ℚ)
    (h2 : alookup (checkDailyCap e now (checkFrequency e now st.store).2).2.counters
      (freqKeyOf e.user_id e.event_type) = some (n, E)) :
    alookup (evaluateFrom ai e now rr st).2.store.counters
      (freqKeyOf e.user_id e.event_type) = some (n, E) := by
  unfold evaluateFrom
  dsimp only
  repeat
    first
      | (rw [decideStep_state_store]; exact h2)
      | split
      | dsimp only

/-- Store effect of one full `evaluate` call on a low-priority event whose
type triggers no terminating rule and which passes dedup with a fresh
fingerprint: its fingerprint is registered and its frequency counter is
incremented, keeping the counter window's expiry. -/
theorem evaluate_step_live (ai : Bool) (e : NotificationEvent) (t : ℚ)
    (st : EngineState)
    (hsec : e.event_type ≠ "security_alert") (hpromo : e.event_type ≠ "promotion")
    (hlow : e.priority_hint = some "low") (hdk : e.dedupe_key = none)
    (hx : e.is_expired t = false)
    (hfp : alookup st.store.kv (fpKey e) = none)
    (c : ℕ) (E : ℚ)
    (hctr : alookup st.store.counters (freqKeyOf e.user_id e.event_type) = some (c, E))
    (hliv : entryExpired E t = false) :
    (evaluate ai e t st).2.store.kv = (fpKey e, (e.id, t + 3600)) :: st.store.kv ∧
    alookup (evaluate ai e t st).2.store.counters
      (freqKeyOf e.user_id e.event_type) = some (c + 1, E) := by
  have hd : alookup (checkDailyCap e t (checkFrequency e t
      { st with store := { st.store with kv := (fpKey e, (e.id, t + 3600)) :: st.store.kv }
        : EngineState }.store).2).2.counters
      (freqKeyOf e.user_id e.event_type) = some (c + 1, E) := by
    rw [checkDailyCap_counters_other _ _ _ _
      (freqKey_ne_dailyKey e.user_id e.event_type e.user_id e.channel t)]
    exact checkFrequency_counters_live e t _ c E hctr hliv
  unfold evaluate
  rw [hx, if_neg Bool.false_ne_true]
  dsimp only
  rw [dedupCheck_fresh_nokey e t st.store hdk hfp]
  dsimp only
  rw [rulesEval_low e hlow hsec hpromo]
  by_cases hu : e.event_type = "update"
  · rw [if_pos hu]
    dsimp only
    rw [if_neg (by decide), if_neg (by decide)]
    constructor
    · rw [evaluateFrom_kv]
    · exact evaluateFrom_counters ai e t _ _ (c + 1) E hd
  · rw [if_neg hu]
    dsimp only
    constructor
    · rw [evaluateFrom_kv]
    · exact evaluateFrom_counters ai e t _ _ (c + 1) E hd

/-- Same as `evaluate_step_live` for the first event of a window: the counter
is created at `(1, t + window)`. -/
theorem evaluate_step_fresh (ai : Bool) (e : NotificationEvent) (t : ℚ)
    (st : EngineState)
    (hsec : e.event_type ≠ "security_alert") (hpromo : e.event_type ≠ "promotion")
    (hlow : e.priority_hint = some "low") (hdk : e.dedupe_key = none)
    (hx : e.is_expired t = false)
    (hfp : alookup st.store.kv (fpKey e) = none)
    (hctr : alookup st.store.counters (freqKeyOf e.user_id e.event_type) = none) :
    (evaluate ai e t st).2.store.kv = (fpKey e, (e.id, t + 3600)) :: st.store.kv ∧
    alookup (evaluate ai e t st).2.store.counters
      (freqKeyOf e.user_id e.event_type) = some (1, t + capWindow e.event_type) := by
  have hd : alookup (checkDailyCap e t (checkFrequency e t
      { st with store := { st.store with kv := (fpKey e, (e.id, t + 3600)) :: st.store.kv }
        : EngineState }.store).2).2.counters
      (freqKeyOf e.user_id e.event_type) = some (1, t + capWindow e.event_type) := by
    rw [checkDailyCap_counters_other _ _ _ _
      (freqKey_ne_dailyKey e.user_id e.event_type e.user_id e.channel t)]
    exact checkFrequency_counters_fresh e t _ hctr
  unfold evaluate
  rw [hx, if_neg Bool.false_ne_true]
  dsimp only
  rw [dedupCheck_fresh_nokey e t st.store hdk hfp]
  dsimp only
  rw [rulesEval_low e hlow hsec hpromo]
  by_cases hu : e.event_type = "update"
  · rw [if_pos hu]
    dsimp only
    rw [if_neg (by decide), if_neg (by decide)]
    constructor
    · rw [evaluateFrom_kv]
    · exact evaluateFrom_counters ai e t _ _ 1 _ hd
  · rw [if_neg hu]
    dsimp only
    constructor
    · rw [evaluateFrom_kv]
    · exact evaluateFrom_counters ai e t _ _ 1 _ hd

/-- Folding a window of dedup-fresh low-priority events over the engine: each
one bumps the shared frequency counter (whatever its own decision was), and
keys other than the registered fingerprints are untouched. -/
theorem runSeq_counter (ai : Bool) (u ty : String)
    (hsec : ty ≠ "security_alert") (hpromo : ty ≠ "promotion") :
    ∀ (ps : List (NotificationEvent × ℚ)) (st : EngineState) (c : ℕ) (E : ℚ),
    (∀ p ∈ ps, p.1.user_id = u ∧ p.1.event_type = ty ∧
      p.1.priority_hint = some "low" ∧ p.1.dedupe_key = none ∧
      p.1.is_expired p.2 = false ∧ p.2 ≤ E) →
    (∀ p ∈ ps, alookup st.store.kv (fpKey p.1) = none) →
    ps.Pairwise (fun a b => fingerprint a.1 ≠ fingerprint b.1) →
    alookup st.store.counters (freqKeyOf u ty) = some (c, E) →
    alookup (runSeq ai st ps).store.counters (freqKeyOf u ty) =
      some (c + ps.length, E) ∧
    (∀ k, (∀ p ∈ ps, k ≠ fpKey p.1) →
      alookup (runSeq ai st ps).store.kv k = alookup st.store.kv k) := by
  intro ps
  induction ps with
  | nil =>
      intro st c E _ _ _ hctr
      exact ⟨by simpa using hctr, fun k _ => rfl⟩
  | cons p1 rest ih =>
      intro st c E hok hfp hdist hctr
      obtain ⟨hu1, hty1, hlow1, hdk1, hx1, htm1⟩ := hok p1 (by simp)
      rw [List.pairwise_cons] at hdist
      obtain ⟨hd1, hdist'⟩ := hdist
      have hliv : entryExpired E p1.2 = false := by
        simp only [entryExpired, decide_eq_false_iff_not, not_lt]
        linarith
      obtain ⟨hkv1, hctr1⟩ := evaluate_step_live ai p1.1 p1.2 st
        (by rw [hty1]; exact hsec) (by rw [hty1]; exact hpromo)
        hlow1 hdk1 hx1 (hfp p1 (by simp)) c E
        (by rw [hu1, hty1]; exact hctr) hliv
      have hstep : runSeq ai st (p1 :: rest) =
          runSeq ai (evaluate ai p1.1 p1.2 st).2 rest := rfl
      have hfpne : ∀ q ∈ rest, fpKey q.1 ≠ fpKey p1.1 := by
        intro q hq
        obtain ⟨huq, _, _, _, _, _⟩ := hok q (by simp [hq])
        unfold fpKey
        rw [huq, hu1]
        exact fingerprintKey_inj (hd1 q hq).symm
      obtain ⟨ih1, ih2⟩ := ih (evaluate ai p1.1 p1.2 st).2 (c + 1) E
        (fun q hq => hok q (by simp [hq]))
        (fun q hq => by
          rw [hkv1, alookup_cons, if_neg (hfpne q hq)]
          exact hfp q (by simp [hq]))
        hdist'
        (by rw [← hu1, ← hty1]; exact hctr1)
      refine ⟨?_, ?_⟩
      · rw [hstep, ih1]
        have : c + 1 + rest.length = c + (p1 :: rest).length := by
          simp [List.length_cons]
          omega
        rw [this]
      · intro k hk
        rw [hstep, ih2 k (fun q hq => hk q (by simp [hq])), hkv1, alookup_cons,
          if_neg (hk p1 (by simp))]

theorem checkFrequency_live_eq (e : NotificationEvent) (now : ℚ) (s : InMemoryStore)
    (c : ℕ) (E : ℚ)
    (hc : alookup s.counters (freqKeyOf e.user_id e.event_type) = some (c, E))
    (hl : entryExpired E now = false) :
    checkFrequency e now s =
      ((if capMax e.event_type < c + 1 then
          some ("Frequency cap exceeded (" ++ toString (c + 1) ++ "/" ++
            toString (capMax e.event_type) ++ " '" ++ e.event_type ++
            "' events in last hour)")
        else none),
       { s with counters :=
          (freqKeyOf e.user_id e.event_type, (c + 1, E)) :: s.counters }) := by
  unfold checkFrequency
  rw [incr_live s _ _ now c E hc hl]
  dsimp only
  split_ifs <;> rfl

/-- The `(M+1)`-th event of a full window: the frequency gate terminates the
pipeline with NEVER for `system_event` and LATER otherwise (`promotion` and
`security_alert` excluded — they never reach the gate). -/
theorem evaluate_overflow (ai : Bool) (e : NotificationEvent) (t : ℚ)
    (st : EngineState)
    (hsec : e.event_type ≠ "security_alert") (hpromo : e.event_type ≠ "promotion")
    (hlow : e.priority_hint = some "low") (hdk : e.dedupe_key = none)
    (hx : e.is_expired t = false)
    (hfp : alookup st.store.kv (fpKey e) = none)
    (c : ℕ) (E : ℚ)
    (hctr : alookup st.store.counters (freqKeyOf e.user_id e.event_type) = some (c, E))
    (hliv : entryExpired E t = false)
    (hcap : capMax e.event_type ≤ c) :
    (evaluate ai e t st).1.action =
      (if e.event_type = "system_event" then "NEVER" else "LATER") ∧
    (evaluate ai e t st).1.rule_matched = some "frequency_cap" := by
  unfold evaluate
  rw [hx, if_neg Bool.false_ne_true]
  dsimp only
  rw [dedupCheck_fresh_nokey e t st.store hdk hfp]
  dsimp only
  rw [rulesEval_low e hlow hsec hpromo]
  have hrest : ∀ rr : Option (String × String × String),
      (evaluateFrom ai e t rr
        { store := { st.store with kv := (fpKey e, (e.id, t + 3600)) :: st.store.kv },
          breaker := st.breaker, audit := st.audit }).1.action =
        (if e.event_type = "system_event" then "NEVER" else "LATER") ∧
      (evaluateFrom ai e t rr
        { store := { st.store with kv := (fpKey e, (e.id, t + 3600)) :: st.store.kv },
          breaker := st.breaker, audit := st.audit }).1.rule_matched =
        some "frequency_cap" := by
    intro rr
    unfold evaluateFrom
    dsimp only
    rw [checkFrequency_live_eq e t
      { st.store with kv := (fpKey e, (e.id, t + 3600)) :: st.store.kv } c E hctr hliv]
    rw [if_pos (by omega)]
    dsimp only
    rw [isHighPriority_low e hlow]
    dsimp only
    by_cases hsys : e.event_type = "system_event"
    · rw [if_pos (Or.inr hsys), if_pos hsys]
      rw [decideStep_decision, isHighPriority_low e hlow]
      rw [if_neg (by simp)]
      exact ⟨rfl, rfl⟩
    · rw [if_neg (by rintro (h | h); exact hpromo h; exact hsys h), if_neg hsys]
      rw [decideStep_decision]
      rw [if_neg (by simp)]
      exact ⟨rfl, rfl⟩
  by_cases hu : e.event_type = "update"
  · rw [if_pos hu]
    dsimp only
    rw [if_neg (by decide), if_neg (by decide)]
    exact hrest _
  · rw [if_neg hu]
    dsimp only
    exact hrest _

/-- A low-priority promotion is suppressed on every path: expiry aside, a
dedup hit gives NEVER and otherwise the `suppress_promos_low_priority` rule
terminates the pipeline with NEVER before the frequency gate. -/
theorem evaluate_promo_low (ai : Bool) (e : NotificationEvent) (t : ℚ)
    (st : EngineState)
    (hty : e.event_type = "promotion") (hlow : e.priority_hint = some "low")
    (hx : e.is_expired t = false) :
    (evaluate ai e t st).1.action = "NEVER" := by
  have hrules : rulesEval e = some ("NEVER",
      "Low-priority promotions suppressed to reduce noise",
      "suppress_promos_low_priority") := by
    unfold rulesEval rulesFirstMatch defaultRules
    have m1 : ruleMatches e
        { name := "always_send_security_alerts", priority := 100,
          conditions := [⟨"event_type", "eq", .scalar (some "security_alert")⟩],
          action := "NOW", reason := "Security alerts always sent immediately" } =
        false := by
      simp [ruleMatches, condHolds, getFieldVal, hty]
    have m2 : ruleMatches e
        { name := "always_send_critical", priority := 99,
          conditions := [⟨"priority_hint", "eq", .scalar (some "critical")⟩],
          action := "NOW", reason := "Critical priority always sent immediately" } =
        false := by
      simp [ruleMatches, condHolds, getFieldVal, hlow]
    have m3 : ruleMatches e
        { name := "suppress_promos_low_priority", priority := 50,
          conditions := [⟨"event_type", "eq", .scalar (some "promotion")⟩,
                         ⟨"priority_hint", "in", .list [some "low", none]⟩],
          action := "NEVER",
          reason := "Low-priority promotions suppressed to reduce noise" } = true := by
      simp [ruleMatches, condHolds, getFieldVal, hty, hlow]
    rw [List.find?, m1, List.find?, m2, List.find?, m3]
  unfold evaluate
  rw [hx, if_neg Bool.false_ne_true]
  dsimp only
  cases hd : (dedupCheck e t st.store).1 with
  | some r =>
      dsimp only
      rw [decideStep_decision, isHighPriority_low e hlow]
      rw [if_neg (by simp)]
  | none =>
      dsimp only
      rw [hrules]
      dsimp only
      rw [if_neg (by decide), if_pos rfl]
      rw [decideStep_decision, isHighPriority_low e hlow]
      rw [if_neg (by simp)]

/-- C4 amended: for every event type *other than `security_alert`*, with
hourly cap `M = capMax ty`, evaluating `M` dedup-fresh low-priority events of
that type for the same user from a fresh engine and then an `(M+1)`-th within
the first event's window yields action LATER, except that `promotion` and
`system_event` yield NEVER (`promotion` via its suppression rule at step 3,
`system_event` via the frequency gate).  For `security_alert` the always-send
rule fires NOW before the frequency gate ever runs — that is the one type the
original claim fails on. -/
theorem C4_frequency_cap_amended (ai : Bool) (u ty : String)
    (hsec : ty ≠ "security_alert")
    (ps : List (NotificationEvent × ℚ)) (eL : NotificationEvent) (tL t1 : ℚ)
    (hlen : ps.length = capMax ty)
    (ht1 : ∀ p, ps.head? = some p → p.2 = t1)
    (hok : ∀ p ∈ ps ++ [(eL, tL)], p.1.user_id = u ∧ p.1.event_type = ty ∧
      p.1.priority_hint = some "low" ∧ p.1.dedupe_key = none ∧
      p.1.is_expired p.2 = false ∧ p.2 ≤ t1 + 3600)
    (hdist : (ps ++ [(eL, tL)]).Pairwise
      (fun a b => fingerprint a.1 ≠ fingerprint b.1)) :
    (evaluate ai eL tL (runSeq ai {} ps)).1.action =
      (if ty = "promotion" ∨ ty = "system_event" then "NEVER" else "LATER") := by
  obtain ⟨huL, htyL, hlowL, hdkL, hxL, htmL⟩ := hok (eL, tL) (by simp)
  by_cases hpromo : ty = "promotion"
  · rw [if_pos (Or.inl hpromo)]
    exact evaluate_promo_low ai eL tL _ (by rw [htyL, hpromo]) hlowL hxL
  · have hcap1 : 1 ≤ capMax ty := by
      unfold capMax
      split_ifs <;> norm_num
    rw [List.pairwise_append] at hdist
    obtain ⟨hdps, -, hcross⟩ := hdist
    cases hps : ps with
    | nil =>
        rw [hps] at hlen
        simp at hlen
        omega
    | cons p1 rest =>
        subst hps
        obtain ⟨hu1, hty1, hlow1, hdk1, hx1, -⟩ := hok p1 (by simp)
        have ht1' : p1.2 = t1 := ht1 p1 rfl
        rw [List.pairwise_cons] at hdps
        obtain ⟨hd1, hdrest⟩ := hdps
        obtain ⟨hkv1, hctr1⟩ := evaluate_step_fresh ai p1.1 p1.2 {}
          (by rw [hty1]; exact hsec) (by rw [hty1]; exact hpromo)
          hlow1 hdk1 hx1 rfl rfl
        have hstep : runSeq ai ({} : EngineState) (p1 :: rest) =
            runSeq ai (evaluate ai p1.1 p1.2 ({} : EngineState)).2 rest := rfl
        have hctr1' : alookup (evaluate ai p1.1 p1.2 ({} : EngineState)).2.store.counters
            (freqKeyOf u ty) = some (1, t1 + 3600) := by
          rw [← hu1, ← hty1, ← ht1']
          exact hctr1
        have hfpne1 : ∀ q ∈ rest ++ [(eL, tL)], fpKey q.1 ≠ fpKey p1.1 := by
          intro q hq
          have hfpq : fingerprint p1.1 ≠ fingerprint q.1 := by
            rcases List.mem_append.mp hq with hq' | hq'
            · exact hd1 q hq'
            · have : q = (eL, tL) := by simpa using hq'
              subst this
              exact hcross p1 (by simp) (eL, tL) (by simp)
          have huq : q.1.user_id = u := (hok q (by
            rcases List.mem_append.mp hq with hq' | hq'
            · exact List.mem_append.mpr (Or.inl (by simp [hq']))
            · exact List.mem_append.mpr (Or.inr hq'))).1
          unfold fpKey
          rw [huq, hu1]
          exact fingerprintKey_inj hfpq.symm
        have hfprest : ∀ q ∈ rest,
            alookup (evaluate ai p1.1 p1.2 ({} : EngineState)).2.store.kv
              (fpKey q.1) = none := by
          intro q hq
          rw [hkv1, alookup_cons,
            if_neg (hfpne1 q (List.mem_append.mpr (Or.inl hq)))]
          rfl
        obtain ⟨hctrN, hkvN⟩ := runSeq_counter ai u ty hsec hpromo rest
          (evaluate ai p1.1 p1.2 ({} : EngineState)).2 1 (t1 + 3600)
          (fun q hq => hok q (by simp [hq])) hfprest hdrest hctr1'
        have hlenN : 1 + rest.length = capMax ty := by
          simp only [List.length_cons] at hlen
          omega
        have hctrFinal : alookup (runSeq ai ({} : EngineState)
            (p1 :: rest)).store.counters (freqKeyOf eL.user_id eL.event_type) =
            some (capMax ty, t1 + 3600) := by
          rw [hstep, huL, htyL, hctrN, hlenN]
        have hfpFinal : alookup (runSeq ai ({} : EngineState)
            (p1 :: rest)).store.kv (fpKey eL) = none := by
          rw [hstep, hkvN (fpKey eL) (fun q hq => by
            have hce : fingerprint q.1 ≠ fingerprint eL :=
              hcross q (by simp [hq]) (eL, tL) (by simp)
            have huq : q.1.user_id = u := (hok q (by simp [hq])).1
            unfold fpKey
            rw [huL, huq]
            exact fingerprintKey_inj hce.symm)]
          rw [hkv1, alookup_cons,
            if_neg (hfpne1 (eL, tL) (List.mem_append.mpr (Or.inr (by simp))))]
          rfl
        have hliv : entryExpired (t1 + 3600) tL = false := by
          simp only [entryExpired, decide_eq_false_iff_not, not_lt]
          linarith
        obtain ⟨hact, -⟩ := evaluate_overflow ai eL tL _
          (by rw [htyL]; exact hsec) (by rw [htyL]; exact hpromo)
          hlowL hdkL hxL hfpFinal (capMax ty) (t1 + 3600)
          (by rw [htyL] at hctrFinal ⊢; exact hctrFinal) hliv
          (by rw [htyL])
        rw [hact, htyL]
        by_cases hsys : ty = "system_event"
        · rw [if_pos hsys, if_pos (Or.inr hsys)]
        · rw [if_neg hsys, if_neg (by rintro (h | h); exact hpromo h; exact hsys h)]

def c4SecEvent (t : String) : NotificationEvent :=
  { user_id := "u4", event_type := "security_alert", channel := "push",
    priority_hint := some "low", title := some t }

def c4SecSeq : List (NotificationEvent × ℚ) :=
  [(c4SecEvent "a1", 0), (c4SecEvent "a2", 0), (c4SecEvent "a3", 0),
   (c4SecEvent "a4", 0), (c4SecEvent "a5", 0), (c4SecEvent "a6", 0),
   (c4SecEvent "a7", 0), (c4SecEvent "a8", 0)]

set_option maxRecDepth 1000000 in
/-- Counterexample to C4 as stated: `security_alert` has the default hourly
cap of 8, yet after 8 low-priority security alerts (distinct contents, same
user, same instant) the 9th yields NOW, not LATER — the always-send rule
terminates the pipeline at step 3, before the frequency gate. -/
theorem C4_counterexample :
    capMax "security_alert" = 8 ∧
    (evaluate true (c4SecEvent "a9") 0 (runSeq true {} c4SecSeq)).1.action = "NOW" ∧
    (evaluate true (c4SecEvent "a9") 0 (runSeq true {} c4SecSeq)).1.action ≠ "LATER" :=
  of_decide_eq_true (by with_unfolding_all rfl)

def c4RemEvent (t : String) : NotificationEvent :=
  { user_id := "u4", event_type := "reminder", channel := "push",
    priority_hint := some "low", title := some t }

set_option maxRecDepth 1000000 in
/-- Witness for C4's amended theorem: `reminder` has cap 3; after three
fresh low-priority reminders the fourth is deferred (LATER). -/
theorem C4_frequency_cap_amended_witness :
    (evaluate true (c4RemEvent "r4") 10
      (runSeq true {} [(c4RemEvent "r1", 0), (c4RemEvent "r2", 1),
        (c4RemEvent "r3", 2)])).1.action =
      (if "reminder" = "promotion" ∨ "reminder" = "system_event"
        then "NEVER" else "LATER") := by
  apply C4_frequency_cap_amended true "u4" "reminder" (by decide)
    [(c4RemEvent "r1", 0), (c4RemEvent "r2", 1), (c4RemEvent "r3", 2)]
    (c4RemEvent "r4") 10 0
  · decide
  · intro p hp
    injection hp with hp
    rw [← hp]
  · intro p hp
    fin_cases hp <;>
      exact ⟨rfl, rfl, rfl, rfl, rfl, by norm_num⟩
  · refine List.Pairwise.cons ?_ (List.Pairwise.cons ?_ (List.Pairwise.cons ?_
      (List.Pairwise.cons ?_ List.Pairwise.nil))) <;>
      intro b hb <;> fin_cases hb <;>
        exact of_decide_eq_true (by with_unfolding_all rfl)
